import Mathlib

/-!
Verification of the random test-program generator in gen_base.py.

The generator is a library of functions over the Python global random
source.  We embed it shallowly: the random source becomes an explicit
stream of natural-number draws (RS below), every primitive random call
consumes exactly one draw, and every generator threads the stream
explicitly.  random.random() is modelled at granularity 1/1000, which
represents every probability threshold appearing in the source (0.25,
0.3, 0.5, 0.6, 0.75, 0.8) exactly.

The mutual recursion generate_block -> rand_stmts ->
generate_random_statment -> generate_block has no structural bound in
the source; we index it by an explicit fuel parameter, with None meaning
the computation did not finish within that recursion budget.
-/

set_option maxHeartbeats 1600000
set_option maxRecDepth 8192

namespace GenBase

/-- The model of the Python global random source: an infinite stream of
raw draws.  Each primitive random call consumes exactly one draw. -/
def RS : Type := Nat → Nat

/-- Drop the first draw of the stream. -/
def shift (s : RS) : RS := fun i => s (i + 1)

/-- A concrete stream given by a list, zero after the end. -/
def ofList (l : List Nat) : RS := fun i => l.getD i 0

/-- Iterated shift, used to name post-consumption states concretely. -/
def shiftN : Nat → RS → RS
  | 0, s => s
  | k + 1, s => shiftN k (shift s)

/-- random.choice(seq): pick index draw mod len (default for empty seq). -/
def choice {α : Type} (d : α) (l : List α) (s : RS) : α × RS :=
  (l.getD (s 0 % l.length) d, shift s)

/-- random.randint(lo, hi) at natural bounds, both inclusive. -/
def randNat (lo hi : Nat) (s : RS) : Nat × RS :=
  (lo + s 0 % (hi + 1 - lo), shift s)

/-- random.randint(lo, hi) at integer bounds, both inclusive
(src line 137, rand_int = random.randint). -/
def rand_int (lo hi : Int) (s : RS) : Int × RS :=
  (lo + (s 0 : Int) % (hi + 1 - lo), shift s)

/-- random.random() modelled at granularity 1/1000: the drawn real is
r/1000 where r is the returned numerator in 0..999.  Every threshold the
source compares against is a multiple of 1/1000, so each comparison is
represented exactly. -/
def rand_real (s : RS) : Nat × RS := (s 0 % 1000, shift s)

/-- string.ascii_letters, in CPython order (lowercase then uppercase). -/
def lettersList : List Char :=
  "abcdefghijklmnopqrstuvwxyzABCDEFGHIJKLMNOPQRSTUVWXYZ".toList

/-- string.digits. -/
def digitsList : List Char := "0123456789".toList

/-- id_charset = letters + digits + underscore (src line 129). -/
def id_charset : List Char := lettersList ++ digitsList ++ ['_']

/-- char_1_charset = letters + underscore (src line 130). -/
def char_1_charset : List Char := lettersList ++ ['_']

/-- data_types (src line 127). -/
def data_types : List String := ["integer", "logical", "void"]

/-- math_ops = tuple of + - * / (src line 123). -/
def math_ops : List String := ["+", "-", "*", "/"]

/-- rel_ops (src line 124). -/
def rel_ops : List String := ["==", ">", ">=", "<", "<=", "~="]

/-- logic_ops = tuple of the and-sign and the or-sign (src line 125). -/
def logic_ops : List String := ["&", "|"]

/-- tuple(operators.values()) in dict insertion order (src lines 110-121),
as consumed by generate_assgn_stmt on line 327. -/
def operator_values : List String :=
  ["+", "-", "*", "/", "==", ">", ">=", "<", "<=", "~="]

/-- rand_type = random.choice over data_types (src line 139). -/
def rand_type (s : RS) : String × RS := choice "" data_types s

/-- whitespace = random.choice over the two-character whitespace alphabet
newline-or-space (src lines 128 and 140), as a one-character string. -/
def whitespace (s : RS) : String × RS :=
  let c := choice ' ' ['\n', ' '] s
  (String.mk [c.1], c.2)

/-- rand_bool = random.choice([True, False]) (src line 142). -/
def rand_bool (s : RS) : Bool × RS := choice true [true, false] s

/-- rand_range = range(rand_int(1, 5)) (src line 141), modelled by the
length of that range: a count drawn from 1..5. -/
def rand_range (s : RS) : Nat × RS := randNat 1 5 s

/-- randint_ = rand_int(1, 10) (src line 143). -/
def randint_ (s : RS) : Nat × RS := randNat 1 10 s

/-- Decimal digits of a natural number, most significant first, fueled
so that it reduces definitionally by structural recursion on the fuel. -/
def natDigsAux : Nat → Nat → List Char → List Char
  | 0, _, acc => acc
  | fuel + 1, n, acc =>
    if n < 10 then Char.ofNat (48 + n % 10) :: acc
    else natDigsAux fuel (n / 10) (Char.ofNat (48 + n % 10) :: acc)

/-- Decimal digit characters of a natural number.  40 fuel levels cover
every number of at most 40 decimal digits, far beyond every integer the
generator renders (magnitudes at most 2 ^ 32 + 1 from rand_lit, at most
10 elsewhere). -/
def natDigs (n : Nat) : List Char := natDigsAux 40 n []

/-- The decimal rendering of a natural number, modelling the Python
f-string formatting of a nonnegative int. -/
def natStr (n : Nat) : String := String.mk (natDigs n)

/-- The decimal rendering of an integer, modelling the Python f-string
formatting of an int. -/
def intStr (i : Int) : String :=
  if i < 0 then "-" ++ natStr i.natAbs else natStr i.natAbs

/-- str.join with a separator, modelling sep.join(list). -/
def joinSep (sep : String) : List String → String
  | [] => ""
  | [x] => x
  | x :: y :: t => x ++ sep ++ joinSep sep (y :: t)

/-- k draws from a character set (one draw per character), modelling
random.choices(charset, k=k). -/
def randChars (cs : List Char) : Nat → RS → List Char × RS
  | 0, s => ([], s)
  | k + 1, s =>
    let c := choice ' ' cs s
    let rest := randChars cs k c.2
    (c.1 :: rest.1, rest.2)

/-- rand_id(n) (src lines 146-150): first character from char_1_charset;
if n == 1 stop there, else append n-1 draws from id_charset.  For n = 0
the Python random.choices(k=-1) yields the empty list, which n-1 = 0 in
Nat subtraction reproduces. -/
def rand_id (n : Nat) (s : RS) : String × RS :=
  let c := choice ' ' char_1_charset s
  if n == 1 then (String.mk [c.1], c.2)
  else
    let rest := randChars id_charset (n - 1) c.2
    (String.mk (c.1 :: rest.1), rest.2)

/-- rand_tuple(tuple_len, member_len) (src lines 153-154). -/
def rand_tuple (tuple_len member_len : Nat) (s : RS) : String × RS :=
  let a := rand_id tuple_len s
  let b := rand_id member_len a.2
  (a.1 ++ ":" ++ b.1, b.2)

/-- rand_lit (src lines 157-165): one real draw selects among a signed
integer from rand_int(-2 ** 31, 2 ** 31), True, False, or a quoted
10-character identifier. -/
def rand_lit (s : RS) : String × RS :=
  let r := rand_real s
  if r.1 < 250 then
    let i := rand_int (-(2 ^ 31)) (2 ^ 31) r.2
    (intStr i.1, i.2)
  else if r.1 < 500 then ("True", r.2)
  else if r.1 < 750 then ("False", r.2)
  else
    let x := rand_id 10 r.2
    ("\"" ++ x.1 ++ "\"", x.2)

/-- rhs_term (src lines 168-172): random.choice over the three generators
rand_tuple, rand_id, randint_ (one draw), then a call of the chosen one. -/
def rhs_term (s : RS) : String × RS :=
  let k := s 0 % 3
  let s := shift s
  if k == 0 then rand_tuple 5 5 s
  else if k == 1 then rand_id 5 s
  else
    let n := randint_ s
    (natStr n.1, n.2)

/-- logical_terms (src lines 175-177).  Python builds the whole
three-element list first, evaluating the comparison f-string with its
two rhs_term calls and its rel_ops choice, and only then draws the
final choice among the three. -/
def logical_terms (s : RS) : String × RS :=
  let a := rhs_term s
  let op := choice "" rel_ops a.2
  let b := rhs_term op.2
  choice "" ["True", "False", a.1 ++ " " ++ op.1 ++ " " ++ b.1] b.2

/-- The non-recursive tail of a rand_exp level (src lines 186-196): given
the two subexpression strings, draw the left paren coin, the right paren
coin, the operator, and the outer paren coin, in source order. -/
def expCombine (ops : List String) (l r : String) (s : RS) : String × RS :=
  let p1 := rand_real s
  let left := if 800 < p1.1 then "(" ++ l ++ ")" else l
  let p2 := rand_real p1.2
  let right := if 800 < p2.1 then "(" ++ r ++ ")" else r
  let op := choice "" ops p2.2
  let ret := left ++ " " ++ op.1 ++ " " ++ right
  let p3 := rand_real op.2
  (if 800 < p3.1 then "(" ++ ret ++ ")" else ret, p3.2)

/-- rand_exp at a natural depth: the structural core of rand_exp
(src lines 180-196).  Depth 0 returns one terminal; depth n+1 builds the
two subexpressions at depth n, then combines them. -/
def rand_expN (g : RS → String × RS) (ops : List String) : Nat → RS → String × RS
  | 0, s => g s
  | n + 1, s =>
    let l := rand_expN g ops n s
    let r := rand_expN g ops n l.2
    expCombine ops l.1 r.1 r.2

/-- rand_exp(exp_gen, ops, depth) (src lines 180-196).  The source
returns a bare terminal whenever depth <= 0 and recurses at depth-1
otherwise, so its behaviour depends only on max(depth, 0), which is
exactly Int.toNat. -/
def rand_exp (g : RS → String × RS) (ops : List String) (depth : Int) (s : RS) :
    String × RS :=
  rand_expN g ops depth.toNat s

/-- rand_math_exp = rand_exp over rhs_term and math_ops (src line 199). -/
def rand_math_exp (depth : Int) (s : RS) : String × RS :=
  rand_exp rhs_term math_ops depth s

/-- rand_logical_exp = rand_exp over logical_terms and logic_ops
(src lines 200-202). -/
def rand_logical_exp (depth : Int) (s : RS) : String × RS :=
  rand_exp logical_terms logic_ops depth s

/-- One declaration item: whitespace, a type, a space, a 3-character
identifier (the lambda inside rand_decls, src line 208). -/
def declItem (s : RS) : String × RS :=
  let w := whitespace s
  let t := rand_type w.2
  let i := rand_id 3 t.2
  (w.1 ++ t.1 ++ " " ++ i.1, i.2)

/-- The k declaration items of rand_decls, in evaluation order. -/
def declItems : Nat → RS → List String × RS
  | 0, s => ([], s)
  | k + 1, s =>
    let d := declItem s
    let rest := declItems k d.2
    (d.1 :: rest.1, rest.2)

/-- rand_decls(n_decls) (src lines 205-209): empty output for an empty
range, else the items joined by the separator with one trailing
separator.  The Python argument is a range object; we pass its length. -/
def rand_decls (k : Nat) (s : RS) : String × RS :=
  if k == 0 then ("", s)
  else
    let items := declItems k s
    (joinSep "." items.1 ++ ".", items.2)

/-- The Python repr of range(0, k), as the f-string in rand_ret renders
a range object drawn from rand_range. -/
def rangeRepr (k : Nat) : String := "range" ++ ("(" ++ ("0, " ++ natStr k) ++ ")")

/-- rand_ret(retval) (src lines 237-247).  With retval truthy, one real
draw selects the value: below 0.3 a range object whose f-string
rendering is the literal text range(0, k) for the drawn k, below 0.6 a
4-character identifier, else random.choice([True, False]).  Otherwise
the bare form. -/
def rand_ret (retval : Bool) (s : RS) : String × RS :=
  if retval then
    let n := rand_real s
    if n.1 < 300 then
      let k := rand_range n.2
      ("return " ++ rangeRepr k.1 ++ ".", k.2)
    else if n.1 < 600 then
      let i := rand_id 4 n.2
      ("return " ++ i.1 ++ ".", i.2)
    else
      let b := rand_bool n.2
      ("return " ++ (if b.1 then "True" else "False") ++ ".", b.2)
  else ("return.", s)

/-- generate_postfix_test(op, tuple_) (src lines 259-260). -/
def generate_postfix_test (op : String) (tuple_ : Bool) (s : RS) : String × RS :=
  let t := if tuple_ then rand_tuple 5 5 s else rand_id 5 s
  (t.1 ++ op ++ ".", t.2)

/-- generate_post_incr_stmt (src line 263). -/
def generate_post_incr_stmt (tuple_ : Bool) (s : RS) : String × RS :=
  generate_postfix_test "++" tuple_ s

/-- generate_post_decr_stmt (src line 264). -/
def generate_post_decr_stmt (tuple_ : Bool) (s : RS) : String × RS :=
  generate_postfix_test "--" tuple_ s

/-- generate_io_test(op, tuple_) (src lines 307-308). -/
def generate_io_test (op : String) (tuple_ : Bool) (s : RS) : String × RS :=
  let t := if tuple_ then rand_tuple 5 5 s else rand_id 5 s
  (op ++ " " ++ t.1 ++ ".", t.2)

/-- generate_read_stmt (src line 311). -/
def generate_read_stmt (tuple_ : Bool) (s : RS) : String × RS :=
  generate_io_test "read >>" tuple_ s

/-- generate_write_stmt (src line 312). -/
def generate_write_stmt (tuple_ : Bool) (s : RS) : String × RS :=
  generate_io_test "write <<" tuple_ s

/-- The argument list of generate_func_call_stmt: for each argument one
real draw picks rand_id above 0.5 and rand_lit otherwise (src line 316). -/
def argItems : Nat → RS → List String × RS
  | 0, s => ([], s)
  | k + 1, s =>
    let r := rand_real s
    let a := if 500 < r.1 then rand_id 5 r.2 else rand_lit r.2
    let rest := argItems k a.2
    (a.1 :: rest.1, rest.2)

/-- generate_func_call_stmt(args) (src lines 315-316).  The f-string
evaluates rand_id first, then the comprehension over range(args), whose
length is args.toNat, so nonpositive counts give an empty list. -/
def generate_func_call_stmt (args : Int) (s : RS) : String × RS :=
  let f := rand_id 5 s
  let as_ := argItems args.toNat f.2
  (f.1 ++ ("(" ++ joinSep ", " as_.1 ++ ")") ++ ".", as_.2)

/-- The right-hand side of generate_assgn_stmt (src lines 325-332): with
simple truthy, one real draw decides between a two-term combination
(operator drawn before the two terms, following the source statement
order) and a bare term; otherwise a rand_math_exp at the given depth. -/
def assgnRhs (simple : Bool) (depth : Int) (s : RS) : String × RS :=
  if simple then
    let r := rand_real s
    if 500 < r.1 then
      let op := choice "" operator_values r.2
      let a := rhs_term op.2
      let b := rhs_term a.2
      (a.1 ++ " " ++ op.1 ++ " " ++ b.1, b.2)
    else rhs_term r.2
  else rand_math_exp depth s

/-- generate_assgn_stmt(tuple_lhs, simple, depth) (src lines 319-334). -/
def generate_assgn_stmt (tuple_lhs simple : Bool) (depth : Int) (s : RS) :
    String × RS :=
  let lhs := if tuple_lhs then rand_tuple 5 5 s else rand_id 5 s
  let rhs := assgnRhs simple depth lhs.2
  (lhs.1 ++ " = " ++ rhs.1 ++ ".", rhs.2)

/-- A Python bool-or-int parameter.  Python bools are ints (True == 1,
False == 0, and isinstance(True, int) holds), which the block generators
rely on when they test isinstance(decls, int). -/
inductive BI
  | b (v : Bool)
  | i (v : Int)

/-- The integer value of a bool-or-int, as Python arithmetic sees it. -/
def BI.toInt : BI → Int
  | .b true => 1
  | .b false => 0
  | .i n => n

/-- Python truthiness of a bool-or-int value. -/
def BI.truthy (x : BI) : Bool := x.toInt != 0

/-- The length of range(x) for a bool-or-int x.  Because
isinstance(decls, int) is true for Python bools as well, the
rand_range() fallback on src lines 274, 279, 344 and 349 is unreachable
for bool-or-int arguments: range(decls) is always taken, with
range(True) = range(1) and range(False) = range(0), and a negative int
giving an empty range. -/
def BI.count (x : BI) : Nat := x.toInt.toNat

/-- The condition part of generate_block (src lines 268-270):
rand_logical_exp(0 if simple else rand_int(1, 3)) when cond is truthy,
else the empty string.  The depth argument is evaluated first, drawing
only when simple is falsy. -/
def blockCond (cond simple : Bool) (s : RS) : String × RS :=
  if cond then
    if simple then rand_logical_exp 0 s
    else
      let d := randNat 1 3 s
      rand_logical_exp (d.1 : Int) d.2
  else ("", s)

/-- The statement list built by rand_stmts: k sequential calls of the
given statement generator (src line 234), propagating a fuel failure. -/
def stmtsListWith (stmtGen : RS → Option (String × RS)) :
    Nat → RS → Option (List String × RS)
  | 0, s => some ([], s)
  | k + 1, s =>
    (stmtGen s).bind fun st =>
      (stmtsListWith stmtGen k st.2).bind fun rest =>
        some (st.1 :: rest.1, rest.2)

/-- rand_stmts(n_stmts) (src lines 233-234) over an explicit statement
generator: the k generated statements joined by newlines. -/
def rand_stmtsWith (stmtGen : RS → Option (String × RS)) (k : Nat) (s : RS) :
    Option (String × RS) :=
  (stmtsListWith stmtGen k s).bind fun l => some (joinSep "\n" l.1, l.2)

/-- generate_block(keyword, cond, simple, decls, stmts, ret, retval)
(src lines 267-290) over an explicit statement generator.  The body
reproduces the source faithfully, including the slip on src line 280:
when stmts is truthy the statements string is assigned to the decls_
variable, discarding any generated declarations (rand_decls has still
consumed its draws), while stmts_ keeps its initial empty value; when
stmts is falsy decls_ is the declarations string.  The match scrutinee
below carries exactly that value together with the current stream.  The
six whitespace draws happen during the final f-string assembly. -/
def generate_blockWith (stmtGen : RS → Option (String × RS)) (keyword : String)
    (cond simple : Bool) (decls stmts : BI) (ret retval : Bool) (s : RS) :
    Option (String × RS) :=
  let c := blockCond cond simple s
  let d := if decls.truthy then rand_decls decls.count c.2 else ("", c.2)
  ((if stmts.truthy then rand_stmtsWith stmtGen stmts.count d.2
    else some d)).bind fun t =>
    let decls_ := t.1
    let stmts_ := ""
    let r := if ret then rand_ret retval t.2 else ("", t.2)
    let w1 := whitespace r.2
    let w2 := whitespace w1.2
    let w3 := whitespace w2.2
    let w4 := whitespace w3.2
    let w5 := whitespace w4.2
    let w6 := whitespace w5.2
    some (keyword ++ " " ++ c.1 ++ w1.1 ++ "[" ++
          (w2.1 ++ decls_ ++ w3.1 ++ stmts_ ++ w4.1 ++ r.1 ++ w5.1) ++ "]"
          ++ w6.1, w6.2)

/-- generate_if_else_stmt (src lines 298-304) over an explicit statement
generator: the if block, then the else block, then one whitespace draw
during the final f-string assembly. -/
def generate_if_else_stmtWith (stmtGen : RS → Option (String × RS))
    (simple : Bool) (decls1 stmts1 : BI) (ret1 retval1 : Bool)
    (decls2 stmts2 : BI) (ret2 retval2 : Bool) (s : RS) :
    Option (String × RS) :=
  (generate_blockWith stmtGen "if" true simple decls1 stmts1 ret1 retval1 s).bind
    fun if_ =>
      (generate_blockWith stmtGen "else" false true decls2 stmts2 ret2
        retval2 if_.2).bind fun else_ =>
        let w := whitespace else_.2
        some (if_.1 ++ w.1 ++ else_.1, w.2)

/-- generate_random_statment (src lines 212-230), indexed by fuel: one
draw 1..9 dispatches to the statement generators, with independently
drawn boolean parameters in source order.  Nested blocks run at one
fuel less; fuel 0 means the recursion budget is exhausted. -/
def generate_random_statment : Nat → RS → Option (String × RS)
  | 0, _ => none
  | fuel + 1, s =>
    let n := randNat 1 9 s
    if n.1 == 1 then
      let b := rand_bool n.2
      some (generate_post_incr_stmt b.1 b.2)
    else if n.1 == 2 then
      let b := rand_bool n.2
      some (generate_post_decr_stmt b.1 b.2)
    else if n.1 == 3 then
      let b1 := rand_bool n.2
      let b2 := rand_bool b1.2
      let b3 := rand_bool b2.2
      let b4 := rand_bool b3.2
      let b5 := rand_bool b4.2
      generate_blockWith (generate_random_statment fuel) "if" true b1.1
        (.b b2.1) (.b b3.1) b4.1 b5.1 b5.2
    else if n.1 == 4 then
      let b1 := rand_bool n.2
      let b2 := rand_bool b1.2
      let b3 := rand_bool b2.2
      let b4 := rand_bool b3.2
      let b5 := rand_bool b4.2
      let b6 := rand_bool b5.2
      let b7 := rand_bool b6.2
      let b8 := rand_bool b7.2
      let b9 := rand_bool b8.2
      generate_if_else_stmtWith (generate_random_statment fuel) b1.1
        (.b b2.1) (.b b3.1) b4.1 b5.1 (.b b6.1) (.b b7.1) b8.1 b9.1 b9.2
    else if n.1 == 5 then
      let b1 := rand_bool n.2
      let b2 := rand_bool b1.2
      let b3 := rand_bool b2.2
      let b4 := rand_bool b3.2
      let b5 := rand_bool b4.2
      generate_blockWith (generate_random_statment fuel) "while" true b1.1
        (.b b2.1) (.b b3.1) b4.1 b5.1 b5.2
    else if n.1 == 6 then
      let b := rand_bool n.2
      some (generate_read_stmt b.1 b.2)
    else if n.1 == 7 then
      let b := rand_bool n.2
      some (generate_write_stmt b.1 b.2)
    else if n.1 == 8 then
      let k := randNat 0 4 n.2
      some (generate_func_call_stmt (k.1 : Int) k.2)
    else
      let b1 := rand_bool n.2
      let b2 := rand_bool b1.2
      let d := randNat 0 2 b2.2
      some (generate_assgn_stmt b1.1 b2.1 (d.1 : Int) d.2)

/-- rand_stmts at a given fuel, the form the block generators consume. -/
def rand_stmts (fuel : Nat) (k : Nat) (s : RS) : Option (String × RS) :=
  rand_stmtsWith (generate_random_statment fuel) k s

/-- generate_block at a given fuel. -/
def generate_block (fuel : Nat) (keyword : String) (cond simple : Bool)
    (decls stmts : BI) (ret retval : Bool) (s : RS) : Option (String × RS) :=
  generate_blockWith (generate_random_statment fuel) keyword cond simple
    decls stmts ret retval s

/-- generate_if_stmt = partial(generate_block, if-keyword, True)
(src line 293). -/
def generate_if_stmt (fuel : Nat) (simple : Bool) (decls stmts : BI)
    (ret retval : Bool) (s : RS) : Option (String × RS) :=
  generate_block fuel "if" true simple decls stmts ret retval s

/-- generate_while_stmt = partial(generate_block, while-keyword, True)
(src line 294). -/
def generate_while_stmt (fuel : Nat) (simple : Bool) (decls stmts : BI)
    (ret retval : Bool) (s : RS) : Option (String × RS) :=
  generate_block fuel "while" true simple decls stmts ret retval s

/-- generate_else_stmt = partial(generate_block, else-keyword, False),
simple keeping its default True (src line 295). -/
def generate_else_stmt (fuel : Nat) (decls stmts : BI) (ret retval : Bool)
    (s : RS) : Option (String × RS) :=
  generate_block fuel "else" false true decls stmts ret retval s

/-- generate_if_else_stmt at a given fuel. -/
def generate_if_else_stmt (fuel : Nat) (simple : Bool)
    (decls1 stmts1 : BI) (ret1 retval1 : Bool)
    (decls2 stmts2 : BI) (ret2 retval2 : Bool) (s : RS) :
    Option (String × RS) :=
  generate_if_else_stmtWith (generate_random_statment fuel) simple
    decls1 stmts1 ret1 retval1 decls2 stmts2 ret2 retval2 s

/-- One typed parameter of generate_func_stmt (the lambda on src
line 340): a type, a space, a 3-character identifier. -/
def paramItem (s : RS) : String × RS :=
  let t := rand_type s
  let i := rand_id 3 t.2
  (t.1 ++ " " ++ i.1, i.2)

/-- The k parameters of generate_func_stmt, in evaluation order. -/
def paramItems : Nat → RS → List String × RS
  | 0, s => ([], s)
  | k + 1, s =>
    let p := paramItem s
    let rest := paramItems k p.2
    (p.1 :: rest.1, rest.2)

/-- generate_func_stmt(args, decls, stmts, ret, retval)
(src lines 337-361).  The parameter count comes from rand_range (drawn
first); decls and stmts follow the same isinstance pattern as
generate_block, where (stmts or 1) equals stmts for every truthy value,
so BI.count applies; here the statements string is stored in the right
variable.  The name, return type and the three whitespace draws happen
during the final f-string assembly, and the body closes with a newline
before the closing block bracket. -/
def generate_func_stmt (fuel : Nat) (args : Bool) (decls stmts : BI)
    (ret retval : Bool) (s : RS) : Option (String × RS) :=
  let a :=
    if args then
      let k := rand_range s
      let ps := paramItems k.1 k.2
      (joinSep ", " ps.1, ps.2)
    else ("", s)
  let d := if decls.truthy then rand_decls decls.count a.2 else ("", a.2)
  ((if stmts.truthy then rand_stmts fuel stmts.count d.2
    else some ("", d.2))).bind fun t =>
    let r := if ret then rand_ret retval t.2 else ("", t.2)
    let ty := rand_type r.2
    let nm := rand_id 5 ty.2
    let w1 := whitespace nm.2
    let w2 := whitespace w1.2
    let w3 := whitespace w2.2
    some (ty.1 ++ " " ++ nm.1 ++ " \x7b" ++ a.1 ++ "\x7d " ++ "[" ++
          (w1.1 ++ d.1 ++ w2.1 ++ t.1 ++ w3.1 ++ r.1 ++ "\n") ++ "]", w3.2)

/-- func_wrap(stmt) (src lines 364-367): wraps a statement string in a
fresh function declaration with an empty parameter list. -/
def func_wrap (stmt : String) (s : RS) : String × RS :=
  let ty := rand_type s
  let nm := rand_id 5 ty.2
  let w := whitespace nm.2
  (ty.1 ++ " " ++ nm.1 ++ " \x7b\x7d " ++ "[" ++ (w.1 ++ stmt ++ "\n") ++ "]", w.2)

/-! ### Well-formedness notions -/

/-- The four bracket characters the well-formedness claim is about. -/
def brackets : List Char := ['[', ']', '(', ')']

/-- Dyck-style matching for one bracket pair, with arbitrary other
characters interleaved: every opener has a matching closer in the right
order. -/
inductive Bal (o c : Char) : List Char → Prop
  | nil : Bal o c []
  | chr {ch : Char} {l : List Char} (h1 : ch ≠ o) (h2 : ch ≠ c)
      (h : Bal o c l) : Bal o c (ch :: l)
  | wrap {l m : List Char} (hl : Bal o c l) (hm : Bal o c m) :
      Bal o c (o :: (l ++ c :: m))

/-- A string is balanced for both block brackets and parentheses. -/
def BalB (t : String) : Prop := Bal '[' ']' t.data ∧ Bal '(' ')' t.data

/-- A string containing no bracket character at all. -/
def NoBrk (t : String) : Prop := ∀ ch ∈ t.data, ch ∉ brackets

/-- A string whose last character is the statement terminator. -/
def endsDot (t : String) : Prop := ∃ p, t.data = p ++ ['.']

instance (t : String) : Decidable (NoBrk t) :=
  List.decidableBAll _ t.data

theorem Bal.balCat {o c : Char} {l m : List Char}
    (h1 : Bal o c l) (h2 : Bal o c m) : Bal o c (l ++ m) := by
  induction h1 with
  | nil => simpa using h2
  | chr hne1 hne2 _ ih => exact .chr hne1 hne2 ih
  | @wrap a b hl hm ihl ihm =>
    have e : (o :: (a ++ c :: b)) ++ m = o :: (a ++ c :: (b ++ m)) := by simp
    rw [e]
    exact .wrap hl ihm

theorem Bal.of_forall {o c : Char} {l : List Char}
    (h : ∀ ch ∈ l, ch ≠ o ∧ ch ≠ c) : Bal o c l := by
  induction l with
  | nil => exact .nil
  | cons a t ih =>
    exact .chr (h a (by simp)).1 (h a (by simp)).2
      (ih fun ch hch => h ch (by simp [hch]))

theorem NoBrk.balB {t : String} (h : NoBrk t) : BalB t := by
  refine ⟨Bal.of_forall fun ch hch => ?_, Bal.of_forall fun ch hch => ?_⟩
  · have := h ch hch
    simp [brackets] at this
    exact ⟨this.1, this.2.1⟩
  · have := h ch hch
    simp [brackets] at this
    exact ⟨this.2.2.1, this.2.2.2⟩

theorem NoBrk.nbCat {a b : String} (ha : NoBrk a) (hb : NoBrk b) :
    NoBrk (a ++ b) := by
  intro ch hch
  rw [String.data_append] at hch
  rcases List.mem_append.1 hch with h | h
  · exact ha ch h
  · exact hb ch h

theorem BalB.bbCat {a b : String} (ha : BalB a) (hb : BalB b) :
    BalB (a ++ b) := by
  constructor <;> rw [String.data_append]
  · exact ha.1.balCat hb.1
  · exact ha.2.balCat hb.2

/-- Wrapping a balanced string in parentheses keeps it balanced. -/
theorem BalB.parenWrap {t : String} (h : BalB t) : BalB ("(" ++ t ++ ")") := by
  constructor
  · rw [String.data_append, String.data_append]
    refine Bal.balCat (Bal.balCat ?_ h.1) ?_
    · exact .chr (by decide) (by decide) .nil
    · exact .chr (by decide) (by decide) .nil
  · rw [String.data_append, String.data_append]
    have : ("(" : String).data ++ t.data ++ (")" : String).data
        = '(' :: (t.data ++ ')' :: []) := by simp
    rw [this]
    exact .wrap h.2 .nil

/-- A balanced prefix, a bracketed balanced body and a balanced suffix
compose to a balanced string. -/
theorem BalB.brkWrap {p i suf : String} (hp : BalB p) (hi : BalB i)
    (hs : BalB suf) : BalB (p ++ "[" ++ i ++ "]" ++ suf) := by
  constructor
  · have : (p ++ "[" ++ i ++ "]" ++ suf).data
        = p.data ++ ('[' :: (i.data ++ ']' :: suf.data)) := by
      simp [String.data_append]
    rw [this]
    exact hp.1.balCat (.wrap hi.1 hs.1)
  · have : (p ++ "[" ++ i ++ "]" ++ suf).data
        = p.data ++ ('[' :: (i.data ++ ']' :: suf.data)) := by
      simp [String.data_append]
    rw [this]
    refine hp.2.balCat (.chr (by decide) (by decide) (Bal.balCat hi.2 ?_))
    exact .chr (by decide) (by decide) hs.2

/-! ### Bracket-freeness of the lexical primitives -/

theorem getD_mem_or {α : Type} (l : List α) (i : Nat) (d : α) :
    l.getD i d ∈ l ∨ l.getD i d = d := by
  induction l generalizing i with
  | nil => right; rfl
  | cons a t ih =>
    cases i with
    | zero => left; simp
    | succ j =>
      rcases ih j with h | h
      · left; simp only [List.getD_cons_succ]; exact List.mem_cons_of_mem a h
      · right; simpa using h

theorem choice_spec {α : Type} (d : α) (l : List α) (s : RS) :
    (choice d l s).1 ∈ l ∨ (choice d l s).1 = d :=
  getD_mem_or l _ d

theorem noBrk_choice {d : String} {l : List String}
    (hl : ∀ x ∈ l, NoBrk x) (hd : NoBrk d) (s : RS) :
    NoBrk (choice d l s).1 := by
  rcases choice_spec d l s with h | h
  · exact hl _ h
  · rw [h]; exact hd

theorem randChars_ok {cs : List Char} (hcs : ∀ ch ∈ cs, ch ∉ brackets) :
    ∀ (k : Nat) (s : RS), ∀ ch ∈ (randChars cs k s).1, ch ∉ brackets := by
  intro k
  induction k with
  | zero => intro s ch hch; simp [randChars] at hch
  | succ n ih =>
    intro s ch hch
    simp only [randChars, List.mem_cons] at hch
    rcases hch with h | h
    · subst h
      rcases choice_spec ' ' cs s with h | h
      · exact hcs _ h
      · rw [h]; decide
    · exact ih _ ch h

theorem noBrk_id_charset : ∀ ch ∈ id_charset, ch ∉ brackets := by decide

theorem noBrk_char_1_charset : ∀ ch ∈ char_1_charset, ch ∉ brackets := by decide

theorem noBrk_rand_id (n : Nat) (s : RS) : NoBrk (rand_id n s).1 := by
  have hc : (choice ' ' char_1_charset s).1 ∉ brackets := by
    rcases choice_spec ' ' char_1_charset s with h | h
    · exact noBrk_char_1_charset _ h
    · rw [h]; decide
  unfold rand_id
  split
  · intro ch hch
    simp only [String.data] at hch
    simp at hch
    rw [hch]; exact hc
  · intro ch hch
    simp only [String.data] at hch
    rcases (List.mem_cons).1 hch with h | h
    · rw [h]; exact hc
    · exact randChars_ok noBrk_id_charset _ _ ch h

theorem noBrk_rand_tuple (a b : Nat) (s : RS) : NoBrk (rand_tuple a b s).1 := by
  unfold rand_tuple
  exact ((noBrk_rand_id a s).nbCat (by decide)).nbCat (noBrk_rand_id b _)

theorem digit_char_ok : ∀ k < 10, Char.ofNat (48 + k) ∉ brackets := by decide

theorem natDigsAux_ok : ∀ (fuel n : Nat) (acc : List Char),
    (∀ ch ∈ acc, ch ∉ brackets) → ∀ ch ∈ natDigsAux fuel n acc, ch ∉ brackets := by
  intro fuel
  induction fuel with
  | zero => intro n acc hacc ch hch; exact hacc ch hch
  | succ f ih =>
    intro n acc hacc ch hch
    have hd : Char.ofNat (48 + n % 10) ∉ brackets :=
      digit_char_ok _ (Nat.mod_lt _ (by omega))
    simp only [natDigsAux] at hch
    split at hch
    · rcases (List.mem_cons).1 hch with h | h
      · rw [h]; exact hd
      · exact hacc ch h
    · refine ih _ _ ?_ ch hch
      intro c hc
      rcases (List.mem_cons).1 hc with h | h
      · rw [h]; exact hd
      · exact hacc c h

theorem noBrk_natStr (n : Nat) : NoBrk (natStr n) := by
  intro ch hch
  exact natDigsAux_ok 40 n [] (by simp) ch hch

theorem noBrk_intStr (i : Int) : NoBrk (intStr i) := by
  unfold intStr
  split
  · exact NoBrk.nbCat (by decide) (noBrk_natStr _)
  · exact noBrk_natStr _

theorem noBrk_rand_type (s : RS) : NoBrk (rand_type s).1 :=
  noBrk_choice (by decide) (by decide) s

theorem noBrk_whitespace (s : RS) : NoBrk (whitespace s).1 := by
  unfold whitespace
  intro ch hch
  simp only [String.data] at hch
  simp at hch
  rw [hch]
  rcases choice_spec ' ' ['\n', ' '] s with h | h
  · simp at h
    rcases h with h | h <;> (rw [h]; decide)
  · rw [h]; decide

theorem noBrk_rand_lit (s : RS) : NoBrk (rand_lit s).1 := by
  simp only [rand_lit]
  split
  · exact noBrk_intStr _
  · split
    · exact (by decide : NoBrk "True")
    · split
      · exact (by decide : NoBrk "False")
      · exact (NoBrk.nbCat (by decide) (noBrk_rand_id 10 _)).nbCat (by decide)

theorem noBrk_rhs_term (s : RS) : NoBrk (rhs_term s).1 := by
  simp only [rhs_term]
  split
  · exact noBrk_rand_tuple 5 5 _
  · split
    · exact noBrk_rand_id 5 _
    · exact noBrk_natStr _

theorem noBrk_logical_terms (s : RS) : NoBrk (logical_terms s).1 := by
  unfold logical_terms
  refine noBrk_choice ?_ (by decide) _
  intro x hx
  simp only [List.mem_cons] at hx
  rcases hx with h | h | h | h
  · rw [h]; decide
  · rw [h]; decide
  · rw [h]
    refine ((((noBrk_rhs_term s).nbCat (by decide)).nbCat ?_).nbCat
      (by decide)).nbCat (noBrk_rhs_term _)
    exact noBrk_choice (by decide) (by decide) _
  · simp at h

theorem noBrk_joinSep {sep : String} (hsep : NoBrk sep) :
    ∀ {l : List String}, (∀ x ∈ l, NoBrk x) → NoBrk (joinSep sep l) := by
  intro l
  induction l with
  | nil => intro _; simp [joinSep]; intro ch hch; simp [String.data] at hch
  | cons a t ih =>
    intro hl
    cases t with
    | nil => simpa [joinSep] using hl a (by simp)
    | cons b u =>
      simp only [joinSep]
      exact ((hl a (by simp)).nbCat hsep).nbCat
        (ih fun x hx => hl x (List.mem_cons_of_mem a hx))

theorem noBrk_declItem (s : RS) : NoBrk (declItem s).1 := by
  unfold declItem
  exact (((noBrk_whitespace s).nbCat (noBrk_rand_type _)).nbCat
    (by decide)).nbCat (noBrk_rand_id 3 _)

theorem noBrk_declItems : ∀ (k : Nat) (s : RS),
    ∀ x ∈ (declItems k s).1, NoBrk x := by
  intro k
  induction k with
  | zero => intro s x hx; simp [declItems] at hx
  | succ n ih =>
    intro s x hx
    simp only [declItems, List.mem_cons] at hx
    rcases hx with h | h
    · rw [h]; exact noBrk_declItem s
    · exact ih _ x h

theorem noBrk_rand_decls (k : Nat) (s : RS) : NoBrk (rand_decls k s).1 := by
  simp only [rand_decls]
  split
  · exact (by decide : NoBrk "")
  · exact (noBrk_joinSep (by decide) (noBrk_declItems k s)).nbCat (by decide)

theorem noBrk_paramItem (s : RS) : NoBrk (paramItem s).1 := by
  unfold paramItem
  exact ((noBrk_rand_type s).nbCat (by decide)).nbCat (noBrk_rand_id 3 _)

theorem noBrk_paramItems : ∀ (k : Nat) (s : RS),
    ∀ x ∈ (paramItems k s).1, NoBrk x := by
  intro k
  induction k with
  | zero => intro s x hx; simp [paramItems] at hx
  | succ n ih =>
    intro s x hx
    simp only [paramItems, List.mem_cons] at hx
    rcases hx with h | h
    · rw [h]; exact noBrk_paramItem s
    · exact ih _ x h

theorem noBrk_argItems : ∀ (k : Nat) (s : RS),
    ∀ x ∈ (argItems k s).1, NoBrk x := by
  intro k
  induction k with
  | zero => intro s x hx; simp [argItems] at hx
  | succ n ih =>
    intro s x hx
    simp only [argItems, List.mem_cons] at hx
    rcases hx with h | h
    · rw [h]
      split
      · exact noBrk_rand_id 5 _
      · exact noBrk_rand_lit _
    · exact ih _ x h

/-! ### Balance of the composite generators -/

/-- A conditional paren wrap keeps balance. -/
theorem BalB.parenWrapIf {x : String} (h : BalB x) (cond : Prop)
    [Decidable cond] : BalB (if cond then "(" ++ x ++ ")" else x) := by
  split
  · exact h.parenWrap
  · exact h

/-- A balanced prefix and a bracketed balanced body compose. -/
theorem BalB.brkWrapEnd {p i : String} (hp : BalB p) (hi : BalB i) :
    BalB (p ++ "[" ++ i ++ "]") := by
  constructor
  · have e : (p ++ "[" ++ i ++ "]").data
        = p.data ++ ('[' :: (i.data ++ ']' :: [])) := by
      simp [String.data_append]
    rw [e]
    exact hp.1.balCat (.wrap hi.1 .nil)
  · have e : (p ++ "[" ++ i ++ "]").data
        = p.data ++ ('[' :: (i.data ++ ']' :: [])) := by
      simp [String.data_append]
    rw [e]
    refine hp.2.balCat (.chr (by decide) (by decide) (Bal.balCat hi.2 ?_))
    exact .chr (by decide) (by decide) .nil

theorem endsDot_append (x : String) : endsDot (x ++ ".") :=
  ⟨x.data, by rw [String.data_append]⟩

theorem balB_rand_expN (g : RS → String × RS) (ops : List String)
    (hg : ∀ s, NoBrk (g s).1) (hops : ∀ op ∈ ops, NoBrk op) :
    ∀ (n : Nat) (s : RS), BalB (rand_expN g ops n s).1 := by
  intro n
  induction n with
  | zero => intro s; exact (hg s).balB
  | succ m ih =>
    intro s
    simp only [rand_expN, expCombine]
    exact BalB.parenWrapIf
      (((((BalB.parenWrapIf (ih s) _).bbCat (by decide : NoBrk " ").balB).bbCat
        (noBrk_choice hops (by decide) _).balB).bbCat
        (by decide : NoBrk " ").balB).bbCat
        (BalB.parenWrapIf (ih _) _)) _

theorem balB_rand_exp (g : RS → String × RS) (ops : List String)
    (hg : ∀ s, NoBrk (g s).1) (hops : ∀ op ∈ ops, NoBrk op)
    (d : Int) (s : RS) : BalB (rand_exp g ops d s).1 :=
  balB_rand_expN g ops hg hops d.toNat s

theorem balB_rand_logical_exp (d : Int) (s : RS) :
    BalB (rand_logical_exp d s).1 :=
  balB_rand_exp _ _ noBrk_logical_terms (by decide) d s

theorem balB_rand_math_exp (d : Int) (s : RS) : BalB (rand_math_exp d s).1 :=
  balB_rand_exp _ _ noBrk_rhs_term (by decide) d s

theorem balB_rangeRepr (k : Nat) : BalB (rangeRepr k) :=
  (by decide : NoBrk "range").balB.bbCat
    (((by decide : NoBrk "0, ").nbCat (noBrk_natStr k)).balB.parenWrap)

theorem balB_rand_ret (retval : Bool) (s : RS) : BalB (rand_ret retval s).1 := by
  simp only [rand_ret]
  split
  · split
    · exact ((by decide : NoBrk "return ").balB.bbCat (balB_rangeRepr _)).bbCat
        (by decide : NoBrk ".").balB
    · split
      · exact (((by decide : NoBrk "return ").nbCat (noBrk_rand_id 4 _)).nbCat
          (by decide : NoBrk ".")).balB
      · split
        · exact (by decide : NoBrk "return True.").balB
        · exact (by decide : NoBrk "return False.").balB
  · exact (by decide : NoBrk "return.").balB

/-- Targets of the postfix and io statements are bracket-free. -/
theorem noBrk_target (tuple_ : Bool) (s : RS) :
    NoBrk (if tuple_ then rand_tuple 5 5 s else rand_id 5 s).1 := by
  split
  · exact noBrk_rand_tuple 5 5 s
  · exact noBrk_rand_id 5 s

theorem noBrk_generate_postfix_test {op : String} (hop : NoBrk op)
    (tuple_ : Bool) (s : RS) : NoBrk (generate_postfix_test op tuple_ s).1 := by
  simp only [generate_postfix_test]
  exact ((noBrk_target tuple_ s).nbCat hop).nbCat (by decide)

theorem endsDot_generate_postfix_test (op : String) (tuple_ : Bool) (s : RS) :
    endsDot (generate_postfix_test op tuple_ s).1 := by
  simp only [generate_postfix_test]
  exact endsDot_append _

theorem noBrk_generate_io_test {op : String} (hop : NoBrk op)
    (tuple_ : Bool) (s : RS) : NoBrk (generate_io_test op tuple_ s).1 := by
  simp only [generate_io_test]
  exact ((hop.nbCat (by decide)).nbCat (noBrk_target tuple_ s)).nbCat (by decide)

theorem endsDot_generate_io_test (op : String) (tuple_ : Bool) (s : RS) :
    endsDot (generate_io_test op tuple_ s).1 := by
  simp only [generate_io_test]
  exact endsDot_append _

theorem balB_generate_func_call_stmt (args : Int) (s : RS) :
    BalB (generate_func_call_stmt args s).1 := by
  simp only [generate_func_call_stmt]
  refine ((noBrk_rand_id 5 s).balB.bbCat ?_).bbCat (by decide : NoBrk ".").balB
  exact (noBrk_joinSep (by decide) (noBrk_argItems _ _)).balB.parenWrap

theorem endsDot_generate_func_call_stmt (args : Int) (s : RS) :
    endsDot (generate_func_call_stmt args s).1 := by
  simp only [generate_func_call_stmt]
  exact endsDot_append _

theorem noBrk_operator_values : ∀ x ∈ operator_values, NoBrk x := by decide

theorem balB_assgnRhs (simple : Bool) (depth : Int) (s : RS) :
    BalB (assgnRhs simple depth s).1 := by
  simp only [assgnRhs]
  split
  · split
    · exact ((((noBrk_rhs_term _).nbCat (by decide : NoBrk " ")).nbCat
        (noBrk_choice noBrk_operator_values (by decide : NoBrk "") _)).nbCat
        (by decide : NoBrk " ")).balB.bbCat (noBrk_rhs_term _).balB
    · exact (noBrk_rhs_term _).balB
  · exact balB_rand_math_exp depth _

theorem balB_generate_assgn_stmt (tuple_lhs simple : Bool) (depth : Int)
    (s : RS) : BalB (generate_assgn_stmt tuple_lhs simple depth s).1 := by
  simp only [generate_assgn_stmt]
  exact (((noBrk_target tuple_lhs s).balB.bbCat
    (by decide : NoBrk " = ").balB).bbCat (balB_assgnRhs simple depth _)).bbCat
    (by decide : NoBrk ".").balB

theorem endsDot_generate_assgn_stmt (tuple_lhs simple : Bool) (depth : Int)
    (s : RS) : endsDot (generate_assgn_stmt tuple_lhs simple depth s).1 := by
  simp only [generate_assgn_stmt]
  exact endsDot_append _

/-! ### Balance of the block cluster -/

theorem balB_joinSep {sep : String} (hsep : BalB sep) :
    ∀ {l : List String}, (∀ x ∈ l, BalB x) → BalB (joinSep sep l) := by
  intro l
  induction l with
  | nil => intro _; exact ⟨.nil, .nil⟩
  | cons a t ih =>
    intro hl
    cases t with
    | nil => simpa [joinSep] using hl a (by simp)
    | cons b u =>
      simp only [joinSep]
      exact ((hl a (by simp)).bbCat hsep).bbCat
        (ih fun x hx => hl x (List.mem_cons_of_mem a hx))

theorem balB_blockCond (cond simple : Bool) (s : RS) :
    BalB (blockCond cond simple s).1 := by
  simp only [blockCond]
  split
  · split
    · exact balB_rand_logical_exp 0 s
    · exact balB_rand_logical_exp _ _
  · exact ⟨.nil, .nil⟩

theorem balB_declsOpt (decls : BI) (s : RS) :
    BalB (if decls.truthy then rand_decls decls.count s else ("", s)).1 := by
  split
  · exact (noBrk_rand_decls _ _).balB
  · exact ⟨.nil, .nil⟩

theorem balB_retOpt (ret retval : Bool) (s : RS) :
    BalB (if ret then rand_ret retval s else ("", s)).1 := by
  split
  · exact balB_rand_ret retval s
  · exact ⟨.nil, .nil⟩

theorem balB_stmtsListWith {stmtGen : RS → Option (String × RS)}
    (hg : ∀ s out, stmtGen s = some out → BalB out.1) :
    ∀ (k : Nat) (s : RS) (out : List String × RS),
      stmtsListWith stmtGen k s = some out → ∀ x ∈ out.1, BalB x := by
  intro k
  induction k with
  | zero =>
    intro s out h x hx
    simp only [stmtsListWith] at h
    injection h with h
    subst h
    simp at hx
  | succ n ih =>
    intro s out h x hx
    simp only [stmtsListWith] at h
    rcases Option.bind_eq_some.1 h with ⟨st, hst, h⟩
    rcases Option.bind_eq_some.1 h with ⟨rest, hrest, h⟩
    injection h with h
    subst h
    rcases List.mem_cons.1 hx with h1 | h1
    · rw [h1]; exact hg _ _ hst
    · exact ih _ _ hrest x h1

theorem balB_rand_stmtsWith {stmtGen : RS → Option (String × RS)}
    (hg : ∀ s out, stmtGen s = some out → BalB out.1)
    (k : Nat) (s : RS) (out : String × RS)
    (h : rand_stmtsWith stmtGen k s = some out) : BalB out.1 := by
  simp only [rand_stmtsWith] at h
  rcases Option.bind_eq_some.1 h with ⟨l, hl, h⟩
  injection h with h
  subst h
  exact balB_joinSep (by decide : NoBrk "\n").balB (balB_stmtsListWith hg k s l hl)

theorem balB_generate_blockWith {stmtGen : RS → Option (String × RS)}
    (hg : ∀ s out, stmtGen s = some out → BalB out.1)
    {keyword : String} (hkw : NoBrk keyword) (cond simple : Bool)
    (decls stmts : BI) (ret retval : Bool) (s : RS) (out : String × RS)
    (h : generate_blockWith stmtGen keyword cond simple decls stmts ret retval s
         = some out) : BalB out.1 := by
  have hw : ∀ s1 : RS, BalB (whitespace s1).1 := fun s1 => (noBrk_whitespace s1).balB
  simp only [generate_blockWith] at h
  rcases Option.bind_eq_some.1 h with ⟨t, heq, h⟩
  injection h with h
  subst h
  have ht : BalB t.1 := by
    split at heq
    · exact balB_rand_stmtsWith hg _ _ _ heq
    · injection heq with heq
      rw [← heq]
      exact balB_declsOpt decls _
  exact BalB.brkWrap
    (((hkw.nbCat (by decide : NoBrk " ")).balB.bbCat
      (balB_blockCond cond simple s)).bbCat (hw _))
    (((((((hw _).bbCat ht).bbCat (hw _)).bbCat
      (⟨.nil, .nil⟩ : BalB "")).bbCat (hw _)).bbCat
      (balB_retOpt ret retval _)).bbCat (hw _))
    (hw _)

theorem balB_generate_if_else_stmtWith {stmtGen : RS → Option (String × RS)}
    (hg : ∀ s out, stmtGen s = some out → BalB out.1)
    (simple : Bool) (decls1 stmts1 : BI) (ret1 retval1 : Bool)
    (decls2 stmts2 : BI) (ret2 retval2 : Bool) (s : RS) (out : String × RS)
    (h : generate_if_else_stmtWith stmtGen simple decls1 stmts1 ret1 retval1
         decls2 stmts2 ret2 retval2 s = some out) : BalB out.1 := by
  simp only [generate_if_else_stmtWith] at h
  rcases Option.bind_eq_some.1 h with ⟨if_, heq1, h⟩
  rcases Option.bind_eq_some.1 h with ⟨else_, heq2, h⟩
  injection h with h
  subst h
  exact ((balB_generate_blockWith hg (by decide) _ _ _ _ _ _ _ _ heq1).bbCat
    (noBrk_whitespace _).balB).bbCat
    (balB_generate_blockWith hg (by decide) _ _ _ _ _ _ _ _ heq2)

theorem balB_generate_random_statment :
    ∀ (fuel : Nat) (s : RS) (out : String × RS),
      generate_random_statment fuel s = some out → BalB out.1 := by
  intro fuel
  induction fuel with
  | zero => intro s out h; simp [generate_random_statment] at h
  | succ f ih =>
    intro s out h
    simp only [generate_random_statment] at h
    split at h
    · injection h with h; subst h
      exact (noBrk_generate_postfix_test (by decide) _ _).balB
    · split at h
      · injection h with h; subst h
        exact (noBrk_generate_postfix_test (by decide) _ _).balB
      · split at h
        · exact balB_generate_blockWith ih (by decide) _ _ _ _ _ _ _ _ h
        · split at h
          · exact balB_generate_if_else_stmtWith ih _ _ _ _ _ _ _ _ _ _ _ h
          · split at h
            · exact balB_generate_blockWith ih (by decide) _ _ _ _ _ _ _ _ h
            · split at h
              · injection h with h; subst h
                exact (noBrk_generate_io_test (by decide) _ _).balB
              · split at h
                · injection h with h; subst h
                  exact (noBrk_generate_io_test (by decide) _ _).balB
                · split at h
                  · injection h with h; subst h
                    exact balB_generate_func_call_stmt _ _
                  · injection h with h; subst h
                    exact balB_generate_assgn_stmt _ _ _ _

theorem balB_generate_block (fuel : Nat) {keyword : String} (hkw : NoBrk keyword)
    (cond simple : Bool) (decls stmts : BI) (ret retval : Bool) (s : RS)
    (out : String × RS)
    (h : generate_block fuel keyword cond simple decls stmts ret retval s
         = some out) : BalB out.1 :=
  balB_generate_blockWith (balB_generate_random_statment fuel) hkw
    cond simple decls stmts ret retval s out h

theorem balB_generate_if_else_stmt (fuel : Nat) (simple : Bool)
    (decls1 stmts1 : BI) (ret1 retval1 : Bool)
    (decls2 stmts2 : BI) (ret2 retval2 : Bool) (s : RS) (out : String × RS)
    (h : generate_if_else_stmt fuel simple decls1 stmts1 ret1 retval1
         decls2 stmts2 ret2 retval2 s = some out) : BalB out.1 :=
  balB_generate_if_else_stmtWith (balB_generate_random_statment fuel)
    simple decls1 stmts1 ret1 retval1 decls2 stmts2 ret2 retval2 s out h

theorem noBrk_argsOpt (args : Bool) (s : RS) :
    NoBrk (if args then
      (joinSep ", " (paramItems (rand_range s).1 (rand_range s).2).1,
       (paramItems (rand_range s).1 (rand_range s).2).2)
      else ("", s)).1 := by
  split
  · exact noBrk_joinSep (by decide) (noBrk_paramItems _ _)
  · exact (by decide : NoBrk "")

theorem balB_generate_func_stmt (fuel : Nat) (args : Bool) (decls stmts : BI)
    (ret retval : Bool) (s : RS) (out : String × RS)
    (h : generate_func_stmt fuel args decls stmts ret retval s = some out) :
    BalB out.1 := by
  have hw : ∀ s1 : RS, BalB (whitespace s1).1 := fun s1 => (noBrk_whitespace s1).balB
  simp only [generate_func_stmt] at h
  rcases Option.bind_eq_some.1 h with ⟨t, heq, h⟩
  injection h with h
  subst h
  have ht : BalB t.1 := by
    split at heq
    · exact balB_rand_stmtsWith (balB_generate_random_statment fuel) _ _ _ heq
    · injection heq with heq
      rw [← heq]
      exact ⟨.nil, .nil⟩
  exact BalB.brkWrapEnd
    ((((((noBrk_rand_type _).nbCat (by decide : NoBrk " ")).nbCat
      (noBrk_rand_id 5 _)).nbCat (by decide : NoBrk " \x7b")).nbCat
      (noBrk_argsOpt args s)).nbCat (by decide : NoBrk "\x7d ")).balB
    (((((((hw _).bbCat (balB_declsOpt decls _)).bbCat (hw _)).bbCat
      ht).bbCat (hw _)).bbCat (balB_retOpt ret retval _)).bbCat
      (by decide : NoBrk "\n").balB)

theorem balB_func_wrap {stmt : String} (hstmt : BalB stmt) (s : RS) :
    BalB (func_wrap stmt s).1 := by
  simp only [func_wrap]
  exact BalB.brkWrapEnd
    ((((noBrk_rand_type _).nbCat (by decide : NoBrk " ")).nbCat
      (noBrk_rand_id 5 _)).nbCat (by decide : NoBrk " \x7b\x7d ")).balB
    (((noBrk_whitespace _).balB.bbCat hstmt).bbCat (by decide : NoBrk "\n").balB)

theorem endsDot_rand_decls {k : Nat} (hk : k ≠ 0) (s : RS) :
    endsDot (rand_decls k s).1 := by
  simp only [rand_decls]
  split
  · rename_i h; exact absurd (by simpa using h) hk
  · exact endsDot_append _

theorem endsDot_rand_ret (retval : Bool) (s : RS) :
    endsDot (rand_ret retval s).1 := by
  simp only [rand_ret]
  split
  · split
    · exact endsDot_append _
    · split
      · exact endsDot_append _
      · exact endsDot_append _
  · exact ⟨['r', 'e', 't', 'u', 'r', 'n'], rfl⟩

/-! ### Expression shape: terminals interleaved with operators and parens -/

/-- A string is an expression built from the listed terminal strings, in
order: a bare terminal, a parenthesized expression, or two expressions
joined by an operator with single spaces.  The terminal list counts the
terminal occurrences in the string, ignoring operator and parenthesis
characters. -/
inductive ExpShape : String → List String → Prop
  | term (t : String) : ExpShape t [t]
  | paren {e : String} {ts : List String} (h : ExpShape e ts) :
      ExpShape ("(" ++ e ++ ")") ts
  | join {l r : String} {ls rs : List String} (op : String)
      (hl : ExpShape l ls) (hr : ExpShape r rs) :
      ExpShape (l ++ " " ++ op ++ " " ++ r) (ls ++ rs)

theorem expCombine_shape (ops : List String) (l r : String) (s : RS)
    {ls rs : List String} (hl : ExpShape l ls) (hr : ExpShape r rs) :
    ExpShape (expCombine ops l r s).1 (ls ++ rs) := by
  simp only [expCombine]
  split
  · exact .paren (.join _ (by split; exacts [.paren hl, hl])
      (by split; exacts [.paren hr, hr]))
  · exact .join _ (by split; exacts [.paren hl, hl])
      (by split; exacts [.paren hr, hr])

theorem rand_expN_shape (g : RS → String × RS) (ops : List String) :
    ∀ (n : Nat) (s : RS), ∃ ts : List String,
      ExpShape (rand_expN g ops n s).1 ts ∧ ts.length = 2 ^ n
        ∧ ∀ t ∈ ts, ∃ s', t = (g s').1 := by
  intro n
  induction n with
  | zero =>
    intro s
    exact ⟨[(g s).1], .term _, rfl, by
      intro t ht
      simp at ht
      exact ⟨s, ht⟩⟩
  | succ m ih =>
    intro s
    obtain ⟨ls, hls, hlen, hmem⟩ := ih s
    obtain ⟨rs, hrs, hrlen, hrmem⟩ := ih (rand_expN g ops m s).2
    refine ⟨ls ++ rs, ?_, ?_, ?_⟩
    · simpa only [rand_expN] using
        expCombine_shape ops _ _ _ hls hrs
    · simp [hlen, hrlen, pow_succ]
      omega
    · intro t ht
      rcases List.mem_append.1 ht with h | h
      · exact hmem t h
      · exact hrmem t h

/-- The decomposition of one rand_exp level: at a positive depth the
output joins the two depth-1 subexpressions (each optionally wrapped in
parentheses) with one operator, optionally wrapping the whole. -/
theorem expCombine_decomp (ops : List String) (l r : String) (s : RS) :
    ∃ (op l' r' : String),
      (op ∈ ops ∨ op = "")
      ∧ (l' = l ∨ l' = "(" ++ l ++ ")")
      ∧ (r' = r ∨ r' = "(" ++ r ++ ")")
      ∧ ((expCombine ops l r s).1 = l' ++ " " ++ op ++ " " ++ r'
         ∨ (expCombine ops l r s).1 = "(" ++ (l' ++ " " ++ op ++ " " ++ r') ++ ")") := by
  simp only [expCombine]
  split
  · split
    · split
      · exact ⟨_, _, _, choice_spec "" ops _, .inr rfl, .inr rfl, .inr rfl⟩
      · exact ⟨_, _, _, choice_spec "" ops _, .inr rfl, .inl rfl, .inr rfl⟩
    · split
      · exact ⟨_, _, _, choice_spec "" ops _, .inl rfl, .inr rfl, .inr rfl⟩
      · exact ⟨_, _, _, choice_spec "" ops _, .inl rfl, .inl rfl, .inr rfl⟩
  · split
    · split
      · exact ⟨_, _, _, choice_spec "" ops _, .inr rfl, .inr rfl, .inl rfl⟩
      · exact ⟨_, _, _, choice_spec "" ops _, .inr rfl, .inl rfl, .inl rfl⟩
    · split
      · exact ⟨_, _, _, choice_spec "" ops _, .inl rfl, .inr rfl, .inl rfl⟩
      · exact ⟨_, _, _, choice_spec "" ops _, .inl rfl, .inl rfl, .inl rfl⟩

/-! ### Substring search and further claim-support definitions -/

/-- Whether the second list starts with the first. -/
def startsList : List Char → List Char → Bool
  | [], _ => true
  | _ :: _, [] => false
  | p :: ps, c :: cs => p == c && startsList ps cs

/-- Whether the pattern occurs as a contiguous sublist. -/
def hasSub (pat : List Char) : List Char → Bool
  | [] => startsList pat []
  | c :: cs => startsList pat (c :: cs) || hasSub pat cs

/-- The count the claim asserts for a boolean decls or stmts parameter:
a fresh random count in 1..4 drawn at the point the section is built.
This follows the claim text, not the source; the source draws 1..5 in
rand_range, and never reaches that draw for bool parameters. -/
def specDeclCount (s : RS) : Nat := (randNat 1 4 s).1

/-- The literal category rand_lit selects from the real draw r/1000:
0 integer, 1 True, 2 False, 3 quoted string (src lines 157-165). -/
def litCat (r : Nat) : Nat :=
  if r < 250 then 0 else if r < 500 then 1 else if r < 750 then 2 else 3

/-- An adversarial 12-periodic draw stream: the dispatcher keeps drawing
statement kind 3 (an if statement) with simple = True, decls = False,
stmts = True, so every nesting level spawns exactly one nested random
statement and the mutual recursion never bottoms out. -/
def badS : RS := fun i => [2, 0, 1, 0, 1, 1, 2, 0, 0, 2, 0, 0].getD (i % 12) 0

/-- The full decomposition of a generate_block output into its assembled
sections: keyword, condition, the six whitespace draws, the bracketed
body whose first slot holds the match-carried string t.1 (statements
when stmts is truthy, declarations otherwise, per the line-280 slip),
the always-empty stmts_ slot, and the return section. -/
theorem generate_blockWith_decomp (stmtGen : RS → Option (String × RS))
    (keyword : String) (cond simple : Bool) (decls stmts : BI)
    (ret retval : Bool) (s : RS) (out : String × RS)
    (h : generate_blockWith stmtGen keyword cond simple decls stmts ret retval s
         = some out) :
    ∃ (t : String × RS) (w1 w2 w3 w4 w5 w6 : String),
      out.1 = keyword ++ " " ++ (blockCond cond simple s).1 ++ w1 ++ "[" ++
        (w2 ++ t.1 ++ w3 ++ "" ++ w4 ++
          (if ret then rand_ret retval t.2 else ("", t.2)).1 ++ w5) ++ "]" ++ w6
      ∧ ((stmts.truthy = true ∧
            rand_stmtsWith stmtGen stmts.count
              (if decls.truthy then rand_decls decls.count (blockCond cond simple s).2
               else ("", (blockCond cond simple s).2)).2 = some t)
         ∨ (stmts.truthy = false ∧
            t = (if decls.truthy then rand_decls decls.count (blockCond cond simple s).2
                 else ("", (blockCond cond simple s).2)))) := by
  simp only [generate_blockWith] at h
  rcases Option.bind_eq_some.1 h with ⟨t, heq, h⟩
  injection h with h
  subst h
  refine ⟨t, _, _, _, _, _, _, rfl, ?_⟩
  split at heq
  · rename_i htr
    exact .inl ⟨htr, heq⟩
  · rename_i htr
    injection heq with heq
    exact .inr ⟨by simpa using htr, heq.symm⟩

/-! ### The claims -/

/-- C1: for every statement or block generator at every documented
parameter combination, the output has matching block brackets and
balanced parentheses; the simple statement generators end in the
terminator, and the declaration and return sections end in the
terminator.  Block outputs end with the closing block bracket plus
trailing whitespace rather than a terminator, and nested statements sit
inside the brackets, so the terminator part of the claim is read per
statement-level clause. -/
theorem C1_wellformed :
    (∀ (tuple_ : Bool) (s : RS),
      BalB (generate_post_incr_stmt tuple_ s).1
        ∧ endsDot (generate_post_incr_stmt tuple_ s).1)
    ∧ (∀ (tuple_ : Bool) (s : RS),
      BalB (generate_post_decr_stmt tuple_ s).1
        ∧ endsDot (generate_post_decr_stmt tuple_ s).1)
    ∧ (∀ (tuple_ : Bool) (s : RS),
      BalB (generate_read_stmt tuple_ s).1
        ∧ endsDot (generate_read_stmt tuple_ s).1)
    ∧ (∀ (tuple_ : Bool) (s : RS),
      BalB (generate_write_stmt tuple_ s).1
        ∧ endsDot (generate_write_stmt tuple_ s).1)
    ∧ (∀ (args : Int) (s : RS),
      BalB (generate_func_call_stmt args s).1
        ∧ endsDot (generate_func_call_stmt args s).1)
    ∧ (∀ (tuple_lhs simple : Bool) (depth : Int) (s : RS),
      BalB (generate_assgn_stmt tuple_lhs simple depth s).1
        ∧ endsDot (generate_assgn_stmt tuple_lhs simple depth s).1)
    ∧ (∀ (fuel : Nat) (keyword : String) (cond simple : Bool) (decls stmts : BI)
        (ret retval : Bool) (s : RS) (out : String × RS), NoBrk keyword →
      generate_block fuel keyword cond simple decls stmts ret retval s = some out →
      BalB out.1)
    ∧ (∀ (fuel : Nat) (simple : Bool) (decls1 stmts1 : BI) (ret1 retval1 : Bool)
        (decls2 stmts2 : BI) (ret2 retval2 : Bool) (s : RS) (out : String × RS),
      generate_if_else_stmt fuel simple decls1 stmts1 ret1 retval1
        decls2 stmts2 ret2 retval2 s = some out → BalB out.1)
    ∧ (∀ (fuel : Nat) (args : Bool) (decls stmts : BI) (ret retval : Bool)
        (s : RS) (out : String × RS),
      generate_func_stmt fuel args decls stmts ret retval s = some out →
      BalB out.1)
    ∧ (∀ (stmt : String) (s : RS), BalB stmt → BalB (func_wrap stmt s).1)
    ∧ (∀ (k : Nat) (s : RS), k ≠ 0 → endsDot (rand_decls k s).1)
    ∧ (∀ (retval : Bool) (s : RS), endsDot (rand_ret retval s).1) := by
  refine ⟨?_, ?_, ?_, ?_, ?_, ?_, ?_, ?_, ?_, ?_, ?_, ?_⟩
  · exact fun tuple_ s => ⟨(noBrk_generate_postfix_test (by decide) tuple_ s).balB,
      endsDot_generate_postfix_test _ tuple_ s⟩
  · exact fun tuple_ s => ⟨(noBrk_generate_postfix_test (by decide) tuple_ s).balB,
      endsDot_generate_postfix_test _ tuple_ s⟩
  · exact fun tuple_ s => ⟨(noBrk_generate_io_test (by decide) tuple_ s).balB,
      endsDot_generate_io_test _ tuple_ s⟩
  · exact fun tuple_ s => ⟨(noBrk_generate_io_test (by decide) tuple_ s).balB,
      endsDot_generate_io_test _ tuple_ s⟩
  · exact fun args s => ⟨balB_generate_func_call_stmt args s,
      endsDot_generate_func_call_stmt args s⟩
  · exact fun a b d s => ⟨balB_generate_assgn_stmt a b d s,
      endsDot_generate_assgn_stmt a b d s⟩
  · exact fun fuel kw c si de st r rv s out hkw h =>
      balB_generate_block fuel hkw c si de st r rv s out h
  · exact fun fuel si d1 s1 r1 v1 d2 s2 r2 v2 s out h =>
      balB_generate_if_else_stmt fuel si d1 s1 r1 v1 d2 s2 r2 v2 s out h
  · exact fun fuel a de st r rv s out h =>
      balB_generate_func_stmt fuel a de st r rv s out h
  · exact fun stmt s hstmt => balB_func_wrap hstmt s
  · exact fun k s hk => endsDot_rand_decls hk s
  · exact fun retval s => endsDot_rand_ret retval s

/-- Witness for C1 at concrete inputs, discharging the hypothesis of
every conditional conjunct. -/
theorem C1_wellformed_witness :
    BalB (((generate_block 1 "if" true true (.i 1) (.i 1) true true
      (ofList [])).getD ("", ofList [])).1)
    ∧ BalB (((generate_if_else_stmt 1 true (.i 1) (.i 0) true true (.i 0) (.i 0)
      false false (ofList [])).getD ("", ofList [])).1)
    ∧ BalB (((generate_func_stmt 1 true (.b true) (.b true) true true
      (ofList [])).getD ("", ofList [])).1)
    ∧ BalB (func_wrap "x++." (ofList [])).1
    ∧ endsDot (rand_decls 2 (ofList [])).1 :=
  ⟨C1_wellformed.2.2.2.2.2.2.1 1 "if" true true (.i 1) (.i 1) true true
      (ofList []) _ (by decide) rfl,
    C1_wellformed.2.2.2.2.2.2.2.1 1 true (.i 1) (.i 0) true true (.i 0) (.i 0)
      false false (ofList []) _ rfl,
    C1_wellformed.2.2.2.2.2.2.2.2.1 1 true (.b true) (.b true) true true
      (ofList []) _ rfl,
    C1_wellformed.2.2.2.2.2.2.2.2.2.1 "x++." (ofList [])
      (by decide : NoBrk "x++.").balB,
    C1_wellformed.2.2.2.2.2.2.2.2.2.2.1 2 (ofList []) (by decide)⟩

/-- C9: for every nonpositive depth, including negative depths, rand_exp
returns exactly the terminal generator output at the same stream: a
single terminal, no operator, no added parentheses, and no failure. -/
theorem C9_nonpositive_depth (g : RS → String × RS) (ops : List String)
    (depth : Int) (s : RS) (h : depth ≤ 0) : rand_exp g ops depth s = g s := by
  unfold rand_exp
  rw [Int.toNat_of_nonpos h]
  rfl

/-- Witness for C9 at depth -3. -/
theorem C9_nonpositive_depth_witness :
    rand_exp rhs_term math_ops (-3) (ofList []) = rhs_term (ofList []) :=
  C9_nonpositive_depth rhs_term math_ops (-3) (ofList []) (by decide)

/-- C10: for every nonpositive argument count, generate_func_call_stmt
behaves exactly as at zero: an identifier applied to an empty argument
list, terminated, with no failure. -/
theorem C10_nonpositive_args (args : Int) (s : RS) (h : args ≤ 0) :
    generate_func_call_stmt args s = generate_func_call_stmt 0 s
    ∧ (generate_func_call_stmt args s).1 = (rand_id 5 s).1 ++ "()."
    ∧ (generate_func_call_stmt args s).2 = (rand_id 5 s).2 := by
  unfold generate_func_call_stmt
  rw [Int.toNat_of_nonpos h]
  refine ⟨rfl, ?_, rfl⟩
  apply String.ext
  simp [String.data_append, argItems, joinSep]

/-- Witness for C10 at argument count -2. -/
theorem C10_nonpositive_args_witness :
    generate_func_call_stmt (-2) (ofList []) = generate_func_call_stmt 0 (ofList [])
    ∧ (generate_func_call_stmt (-2) (ofList [])).1
        = (rand_id 5 (ofList [])).1 ++ "()."
    ∧ (generate_func_call_stmt (-2) (ofList [])).2 = (rand_id 5 (ofList [])).2 :=
  C10_nonpositive_args (-2) (ofList []) (by decide)

/-- C8: every generator is a pure function of its parameters and the
explicit random stream substituted for the Python global source: two
invocations with identical parameters and identical initial stream
return identical results, output string included. -/
theorem C8_determinism :
    (∀ (op : String) (tuple_ : Bool) (s t : RS), s = t →
      generate_postfix_test op tuple_ s = generate_postfix_test op tuple_ t)
    ∧ (∀ (op : String) (tuple_ : Bool) (s t : RS), s = t →
      generate_io_test op tuple_ s = generate_io_test op tuple_ t)
    ∧ (∀ (args : Int) (s t : RS), s = t →
      generate_func_call_stmt args s = generate_func_call_stmt args t)
    ∧ (∀ (a b : Bool) (d : Int) (s t : RS), s = t →
      generate_assgn_stmt a b d s = generate_assgn_stmt a b d t)
    ∧ (∀ (g : RS → String × RS) (ops : List String) (d : Int) (s t : RS), s = t →
      rand_exp g ops d s = rand_exp g ops d t)
    ∧ (∀ (fuel : Nat) (kw : String) (c si : Bool) (de st : BI) (r rv : Bool)
        (s t : RS), s = t →
      generate_block fuel kw c si de st r rv s = generate_block fuel kw c si de st r rv t)
    ∧ (∀ (fuel : Nat) (si : Bool) (d1 s1 : BI) (r1 v1 : Bool) (d2 s2 : BI)
        (r2 v2 : Bool) (s t : RS), s = t →
      generate_if_else_stmt fuel si d1 s1 r1 v1 d2 s2 r2 v2 s
        = generate_if_else_stmt fuel si d1 s1 r1 v1 d2 s2 r2 v2 t)
    ∧ (∀ (fuel : Nat) (a : Bool) (de st : BI) (r rv : Bool) (s t : RS), s = t →
      generate_func_stmt fuel a de st r rv s = generate_func_stmt fuel a de st r rv t)
    ∧ (∀ (stmt : String) (s t : RS), s = t → func_wrap stmt s = func_wrap stmt t)
    ∧ (∀ (fuel : Nat) (s t : RS), s = t →
      generate_random_statment fuel s = generate_random_statment fuel t) := by
  refine ⟨?_, ?_, ?_, ?_, ?_, ?_, ?_, ?_, ?_, ?_⟩ <;>
    intros <;> subst_vars <;> rfl

/-- Witness for C8: every conjunct applied at a concrete repeated state. -/
theorem C8_determinism_witness :
    generate_postfix_test "++" true (ofList [3]) = generate_postfix_test "++" true (ofList [3])
    ∧ generate_io_test "read >>" false (ofList [3]) = generate_io_test "read >>" false (ofList [3])
    ∧ generate_func_call_stmt 2 (ofList [3]) = generate_func_call_stmt 2 (ofList [3])
    ∧ generate_assgn_stmt true true 1 (ofList [3]) = generate_assgn_stmt true true 1 (ofList [3])
    ∧ rand_exp rhs_term math_ops 2 (ofList [3]) = rand_exp rhs_term math_ops 2 (ofList [3])
    ∧ generate_block 2 "if" true true (.b true) (.b true) true true (ofList [3])
        = generate_block 2 "if" true true (.b true) (.b true) true true (ofList [3])
    ∧ generate_if_else_stmt 2 true (.b true) (.b true) true true (.b true) (.b true)
        true true (ofList [3])
        = generate_if_else_stmt 2 true (.b true) (.b true) true true (.b true) (.b true)
        true true (ofList [3])
    ∧ generate_func_stmt 2 true (.b true) (.b true) true true (ofList [3])
        = generate_func_stmt 2 true (.b true) (.b true) true true (ofList [3])
    ∧ func_wrap "x++." (ofList [3]) = func_wrap "x++." (ofList [3])
    ∧ generate_random_statment 2 (ofList [3]) = generate_random_statment 2 (ofList [3]) :=
  ⟨C8_determinism.1 "++" true (ofList [3]) (ofList [3]) rfl,
    C8_determinism.2.1 "read >>" false (ofList [3]) (ofList [3]) rfl,
    C8_determinism.2.2.1 2 (ofList [3]) (ofList [3]) rfl,
    C8_determinism.2.2.2.1 true true 1 (ofList [3]) (ofList [3]) rfl,
    C8_determinism.2.2.2.2.1 rhs_term math_ops 2 (ofList [3]) (ofList [3]) rfl,
    C8_determinism.2.2.2.2.2.1 2 "if" true true (.b true) (.b true) true true
      (ofList [3]) (ofList [3]) rfl,
    C8_determinism.2.2.2.2.2.2.1 2 true (.b true) (.b true) true true (.b true)
      (.b true) true true (ofList [3]) (ofList [3]) rfl,
    C8_determinism.2.2.2.2.2.2.2.1 2 true (.b true) (.b true) true true
      (ofList [3]) (ofList [3]) rfl,
    C8_determinism.2.2.2.2.2.2.2.2.1 "x++." (ofList [3]) (ofList [3]) rfl,
    C8_determinism.2.2.2.2.2.2.2.2.2 2 (ofList [3]) (ofList [3]) rfl⟩

/-! ### Counting declaration items by their terminators -/

theorem noDot_randChars {cs : List Char} (hcs : '.' ∉ cs) :
    ∀ (k : Nat) (s : RS), '.' ∉ (randChars cs k s).1 := by
  intro k
  induction k with
  | zero => intro s h; simp [randChars] at h
  | succ n ih =>
    intro s h
    simp only [randChars, List.mem_cons] at h
    rcases h with h | h
    · rcases choice_spec ' ' cs s with hm | hm
      · rw [← h] at hm; exact hcs hm
      · rw [hm] at h; exact absurd h (by decide)
    · exact ih _ h

theorem noDot_rand_id (n : Nat) (s : RS) : '.' ∉ ((rand_id n s).1).data := by
  have hc : (choice ' ' char_1_charset s).1 ≠ '.' := by
    rcases choice_spec ' ' char_1_charset s with h | h
    · intro he; rw [he] at h; exact absurd h (by decide)
    · rw [h]; decide
  unfold rand_id
  split
  · intro h
    simp only [String.data] at h
    simp at h
    exact hc h.symm
  · intro h
    simp only [String.data] at h
    rcases List.mem_cons.1 h with h1 | h1
    · exact hc h1.symm
    · exact noDot_randChars (by decide) _ _ h1

theorem noDot_rand_type (s : RS) : '.' ∉ ((rand_type s).1).data := by
  rcases choice_spec "" data_types s with h | h
  · revert h
    have : ∀ x ∈ data_types, '.' ∉ x.data := by decide
    exact fun h => this _ h
  · rw [show (rand_type s).1 = (choice "" data_types s).1 from rfl, h]
    decide

theorem noDot_whitespace (s : RS) : '.' ∉ ((whitespace s).1).data := by
  unfold whitespace
  intro h
  simp only [String.data] at h
  simp at h
  rcases choice_spec ' ' ['\n', ' '] s with hm | hm
  · simp at hm
    rcases hm with hm | hm <;> (rw [hm] at h; exact absurd h.symm (by decide))
  · rw [hm] at h; exact absurd h.symm (by decide)

theorem noDot_declItem (s : RS) : '.' ∉ ((declItem s).1).data := by
  unfold declItem
  intro h
  rw [String.data_append, String.data_append, String.data_append] at h
  rcases List.mem_append.1 h with h1 | h1
  · rcases List.mem_append.1 h1 with h2 | h2
    · rcases List.mem_append.1 h2 with h3 | h3
      · exact noDot_whitespace s h3
      · exact noDot_rand_type _ h3
    · exact absurd h2 (by decide)
  · exact noDot_rand_id 3 _ h1

theorem noDot_declItems : ∀ (k : Nat) (s : RS),
    ∀ x ∈ (declItems k s).1, '.' ∉ x.data := by
  intro k
  induction k with
  | zero => intro s x hx; simp [declItems] at hx
  | succ n ih =>
    intro s x hx
    simp only [declItems, List.mem_cons] at hx
    rcases hx with h | h
    · rw [h]; exact noDot_declItem s
    · exact ih _ x h

theorem declItems_length : ∀ (k : Nat) (s : RS), (declItems k s).1.length = k := by
  intro k
  induction k with
  | zero => intro s; simp [declItems]
  | succ n ih => intro s; simp [declItems, ih]

theorem count_joinSep_dot : ∀ (l : List String), (∀ x ∈ l, '.' ∉ x.data) →
    List.count '.' ((joinSep "." l).data) = l.length - 1 := by
  intro l
  induction l with
  | nil => intro _; simp [joinSep]
  | cons a t ih =>
    intro hl
    cases t with
    | nil =>
      simp only [joinSep]
      simp [List.count_eq_zero.2 (hl a (by simp))]
    | cons b u =>
      simp only [joinSep]
      rw [String.data_append, String.data_append, List.count_append,
        List.count_append]
      rw [List.count_eq_zero.2 (hl a (by simp)),
        ih fun x hx => hl x (List.mem_cons_of_mem a hx)]
      simp
      omega

theorem count_rand_decls (k : Nat) (s : RS) :
    List.count '.' ((rand_decls k s).1).data = k := by
  simp only [rand_decls]
  split
  · rename_i h
    simp at h
    simp [h]
  · rename_i h
    simp at h
    rw [String.data_append, List.count_append,
      count_joinSep_dot _ (noDot_declItems k s), declItems_length]
    have : List.count '.' ("." : String).data = 1 := by decide
    rw [this]
    omega

/-- C5: for every terminal generator, operator set and depth in 0..4,
the rand_exp output is an interleaving of at most 2 ^ depth terminal
outputs with operators and parentheses; at depth 0 it is exactly one
terminal, and at positive depth it joins the two depth-1 subexpressions
with one operator drawn from the operator set, with optional
parenthesization. -/
theorem C5_depth_bound (g : RS → String × RS) (ops : List String) (depth : Int)
    (s : RS) (h0 : 0 ≤ depth) (h4 : depth ≤ 4) :
    (∃ ts : List String,
      ExpShape (rand_exp g ops depth s).1 ts
      ∧ ts.length ≤ 2 ^ depth.toNat
      ∧ ∀ t ∈ ts, ∃ s', t = (g s').1)
    ∧ (depth = 0 → (rand_exp g ops depth s).1 = (g s).1)
    ∧ (0 < depth →
      ∃ (op l' r' : String),
        (op ∈ ops ∨ op = "")
        ∧ (l' = (rand_exp g ops (depth - 1) s).1
           ∨ l' = "(" ++ (rand_exp g ops (depth - 1) s).1 ++ ")")
        ∧ (r' = (rand_exp g ops (depth - 1) (rand_exp g ops (depth - 1) s).2).1
           ∨ r' = "(" ++ (rand_exp g ops (depth - 1)
               (rand_exp g ops (depth - 1) s).2).1 ++ ")")
        ∧ ((rand_exp g ops depth s).1 = l' ++ " " ++ op ++ " " ++ r'
           ∨ (rand_exp g ops depth s).1
             = "(" ++ (l' ++ " " ++ op ++ " " ++ r') ++ ")")) := by
  refine ⟨?_, ?_, ?_⟩
  · obtain ⟨ts, h1, h2, h3⟩ := rand_expN_shape g ops depth.toNat s
    exact ⟨ts, h1, le_of_eq h2, h3⟩
  · intro h
    subst h
    rfl
  · intro hpos
    obtain ⟨m, hm⟩ : ∃ m, depth.toNat = m + 1 := ⟨depth.toNat - 1, by omega⟩
    have h1 : (depth - 1).toNat = m := by omega
    have he : rand_exp g ops depth s
        = expCombine ops (rand_expN g ops m s).1
            (rand_expN g ops m (rand_expN g ops m s).2).1
            (rand_expN g ops m (rand_expN g ops m s).2).2 := by
      unfold rand_exp
      rw [hm]
      rfl
    rw [he]
    simp only [rand_exp, h1]
    exact expCombine_decomp ops _ _ _

/-- Witness for C5 at depth 2 over the arithmetic terminals. -/
theorem C5_depth_bound_witness :
    ∃ ts : List String,
      ExpShape (rand_exp rhs_term math_ops 2 (ofList [])).1 ts
      ∧ ts.length ≤ 2 ^ (2 : Int).toNat
      ∧ ∀ t ∈ ts, ∃ s', t = (rhs_term s').1 :=
  (C5_depth_bound rhs_term math_ops 2 (ofList []) (by decide) (by decide)).1

/-- C3 (amended): the return section of generate_block is empty when ret
is falsy; with ret truthy it is the rand_ret output, which is the bare
form exactly when retval is falsy and a valued return otherwise. -/
theorem C3_return_sections :
    (∀ s : RS, rand_ret false s = ("return.", s))
    ∧ (∀ s : RS, ∃ v : String, (rand_ret true s).1 = "return " ++ v ++ ".")
    ∧ (∀ (fuel : Nat) (keyword : String) (cond simple : Bool) (decls stmts : BI)
        (ret retval : Bool) (s : RS) (out : String × RS),
      generate_block fuel keyword cond simple decls stmts ret retval s = some out →
      ∃ (body retS w1 w2 w3 w4 w5 w6 : String) (s' : RS),
        out.1 = keyword ++ " " ++ (blockCond cond simple s).1 ++ w1 ++ "[" ++
          (w2 ++ body ++ w3 ++ "" ++ w4 ++ retS ++ w5) ++ "]" ++ w6
        ∧ (ret = false → retS = "")
        ∧ (ret = true → retS = (rand_ret retval s').1)) := by
  refine ⟨fun s => rfl, ?_, ?_⟩
  · intro s
    simp only [rand_ret]
    split
    · split
      · exact ⟨rangeRepr _, rfl⟩
      · split
        · exact ⟨(rand_id 4 _).1, rfl⟩
        · exact ⟨if (rand_bool _).1 then "True" else "False", rfl⟩
    · rename_i hf
      exact absurd trivial hf
  · intro fuel kw cond simple decls stmts ret retval s out h
    obtain ⟨t, w1, w2, w3, w4, w5, w6, hout, _⟩ :=
      generate_blockWith_decomp _ kw cond simple decls stmts ret retval s out h
    refine ⟨t.1, _, w1, w2, w3, w4, w5, w6, t.2, hout, ?_, ?_⟩
    · intro hr
      subst hr
      rfl
    · intro hr
      subst hr
      rfl

/-- Witness for C3 at a concrete block call with ret truthy. -/
theorem C3_return_sections_witness :
    ∃ (body retS w1 w2 w3 w4 w5 w6 : String) (s' : RS),
      ((generate_block 1 "if" true true (.i 0) (.i 0) true false
          (ofList [])).getD ("", ofList [])).1
        = "if" ++ " " ++ (blockCond true true (ofList [])).1 ++ w1 ++ "[" ++
          (w2 ++ body ++ w3 ++ "" ++ w4 ++ retS ++ w5) ++ "]" ++ w6
      ∧ (true = false → retS = "")
      ∧ (true = true → retS = (rand_ret false s').1) :=
  C3_return_sections.2.2 1 "if" true true (.i 0) (.i 0) true false
    (ofList []) _ rfl

/-- C3 counterexample: with ret = False the claimed bare return clause is
absent altogether — the block body contains no return text at all. -/
theorem C3_counterexample :
    (generate_block 1 "if" true true (.i 0) (.i 0) false false
        (ofList [])).map Prod.fst = some "if True\n[\n\n\n\n]\n"
    ∧ hasSub "return".toList "if True\n[\n\n\n\n]\n".toList = false :=
  ⟨rfl, by decide⟩

/-- C6 (amended): rand_decls emits exactly k terminated declarations for
an explicit count k, and 0 yields the empty section; a boolean True
parameter contributes BI.count (.b true) = 1 item, because Python bools
are ints and range(True) = range(1) is taken, never the random-count
fallback; generate_block and generate_func_stmt build their declaration
sections as rand_decls at exactly that count. -/
theorem C6_section_counts :
    (∀ (k : Nat) (s : RS), List.count '.' ((rand_decls k s).1).data = k)
    ∧ (∀ s : RS, rand_decls 0 s = ("", s))
    ∧ (BI.count (.b true) = 1 ∧ BI.count (.b false) = 0
        ∧ ∀ n : Int, BI.count (.i n) = n.toNat)
    ∧ (∀ (fuel : Nat) (keyword : String) (cond simple : Bool) (x : BI)
        (ret retval : Bool) (s : RS) (out : String × RS),
      generate_block fuel keyword cond simple x (.i 0) ret retval s = some out →
      ∃ (retS w1 w2 w3 w4 w5 w6 : String),
        out.1 = keyword ++ " " ++ (blockCond cond simple s).1 ++ w1 ++ "[" ++
          (w2 ++ (if x.truthy then rand_decls x.count (blockCond cond simple s).2
                  else ("", (blockCond cond simple s).2)).1
            ++ w3 ++ "" ++ w4 ++ retS ++ w5) ++ "]" ++ w6)
    ∧ (∀ (fuel : Nat) (args : Bool) (x stmts : BI) (ret retval : Bool)
        (s : RS) (out : String × RS),
      generate_func_stmt fuel args x stmts ret retval s = some out →
      ∃ (s' : RS) (tyS nmS argsS stmtsS retS w1 w2 w3 : String),
        out.1 = tyS ++ " " ++ nmS ++ " \x7b" ++ argsS ++ "\x7d " ++ "[" ++
          (w1 ++ (if x.truthy then rand_decls x.count s' else ("", s')).1
            ++ w2 ++ stmtsS ++ w3 ++ retS ++ "\n") ++ "]") := by
  refine ⟨count_rand_decls, fun s => rfl, ⟨rfl, rfl, fun n => rfl⟩, ?_, ?_⟩
  · intro fuel kw cond simple x ret retval s out h
    obtain ⟨t, w1, w2, w3, w4, w5, w6, hout, hdisj⟩ :=
      generate_blockWith_decomp _ kw cond simple x (.i 0) ret retval s out h
    rcases hdisj with ⟨htr, _⟩ | ⟨_, ht⟩
    · exact absurd htr (by decide)
    · refine ⟨(if ret then rand_ret retval t.2 else ("", t.2)).1,
        w1, w2, w3, w4, w5, w6, ?_⟩
      rw [hout, ht]
  · intro fuel args x stmts ret retval s out h
    simp only [generate_func_stmt] at h
    rcases Option.bind_eq_some.1 h with ⟨t, heq, h⟩
    injection h with h
    subst h
    exact ⟨_, _, _, _, _, _, _, _, _, rfl⟩

/-- Witness for C6 at a concrete block and a concrete function. -/
theorem C6_section_counts_witness :
    (∃ (retS w1 w2 w3 w4 w5 w6 : String),
      ((generate_block 1 "while" true true (.b true) (.i 0) false false
          (ofList [])).getD ("", ofList [])).1
        = "while" ++ " " ++ (blockCond true true (ofList [])).1 ++ w1 ++ "[" ++
          (w2 ++ (if (BI.b true).truthy
                  then rand_decls (BI.b true).count (blockCond true true (ofList [])).2
                  else ("", (blockCond true true (ofList [])).2)).1
            ++ w3 ++ "" ++ w4 ++ retS ++ w5) ++ "]" ++ w6)
    ∧ (∃ (s' : RS) (tyS nmS argsS stmtsS retS w1 w2 w3 : String),
      ((generate_func_stmt 1 false (.i 3) (.i 0) false false
          (ofList [])).getD ("", ofList [])).1
        = tyS ++ " " ++ nmS ++ " \x7b" ++ argsS ++ "\x7d " ++ "[" ++
          (w1 ++ (if (BI.i 3).truthy then rand_decls (BI.i 3).count s'
                  else ("", s')).1
            ++ w2 ++ stmtsS ++ w3 ++ retS ++ "\n") ++ "]") :=
  ⟨C6_section_counts.2.2.2.1 1 "while" true true (.b true) false false
      (ofList []) _ rfl,
    C6_section_counts.2.2.2.2 1 false (.i 3) (.i 0) false false
      (ofList []) _ rfl⟩

/-- C6 counterexample: at this stream the claimed random count in 1..4
for a boolean True decls parameter would be 2, but the function body
contains exactly one declaration terminator: True always yields exactly
one declaration. -/
theorem C6_counterexample :
    List.count '.' (((generate_func_stmt 1 false (.b true) (.i 0) false false
        (ofList [1])).getD ("", ofList [])).1).data = 1
    ∧ specDeclCount (ofList [1]) = 2 :=
  ⟨by decide, by decide⟩

/-- C7 (amended): the integer literal category of rand_lit draws from
the inclusive range -2 ^ 31 .. 2 ^ 31 — one above the signed 32-bit
maximum — and the four literal categories each cover exactly 250 of the
1000 equal-measure classes of the real draw, hence 25 percent each. -/
theorem C7_literal_ranges :
    (∀ s : RS, -(2 ^ 31) ≤ (rand_int (-(2 ^ 31)) (2 ^ 31) s).1
        ∧ (rand_int (-(2 ^ 31)) (2 ^ 31) s).1 ≤ 2 ^ 31)
    ∧ (∀ s : RS, (rand_real s).1 < 250 →
      (rand_lit s).1 = intStr (rand_int (-(2 ^ 31)) (2 ^ 31) (rand_real s).2).1)
    ∧ (∀ s : RS, 250 ≤ (rand_real s).1 → (rand_real s).1 < 500 →
      (rand_lit s).1 = "True")
    ∧ (∀ s : RS, 500 ≤ (rand_real s).1 → (rand_real s).1 < 750 →
      (rand_lit s).1 = "False")
    ∧ (∀ s : RS, 750 ≤ (rand_real s).1 →
      (rand_lit s).1 = "\"" ++ (rand_id 10 (rand_real s).2).1 ++ "\"")
    ∧ (∀ s : RS, (rand_real s).1 < 1000)
    ∧ (∀ c : Nat, c < 4 →
      ((List.range 1000).filter (fun r => litCat r == c)).length = 250) := by
  refine ⟨?_, ?_, ?_, ?_, ?_, ?_, ?_⟩
  · intro s
    simp only [rand_int]
    have h1 : (0 : Int) ≤ (s 0 : Int) % (2 ^ 31 + 1 - -(2 ^ 31)) :=
      Int.emod_nonneg _ (by norm_num)
    have h2 : (s 0 : Int) % (2 ^ 31 + 1 - -(2 ^ 31)) < 2 ^ 31 + 1 - -(2 ^ 31) :=
      Int.emod_lt_of_pos _ (by norm_num)
    constructor <;> linarith
  · intro s h
    simp only [rand_lit, if_pos h]
  · intro s h1 h2
    simp only [rand_lit, if_neg (by omega : ¬(rand_real s).1 < 250), if_pos h2]
  · intro s h1 h2
    simp only [rand_lit, if_neg (by omega : ¬(rand_real s).1 < 250),
      if_neg (by omega : ¬(rand_real s).1 < 500), if_pos h2]
  · intro s h
    simp only [rand_lit, if_neg (by omega : ¬(rand_real s).1 < 250),
      if_neg (by omega : ¬(rand_real s).1 < 500),
      if_neg (by omega : ¬(rand_real s).1 < 750)]
  · intro s
    exact Nat.mod_lt _ (by omega)
  · decide

/-- Witness for C7 at concrete draws for each conditional conjunct. -/
theorem C7_literal_ranges_witness :
    (-(2 ^ 31) ≤ (rand_int (-(2 ^ 31)) (2 ^ 31) (ofList [5])).1
      ∧ (rand_int (-(2 ^ 31)) (2 ^ 31) (ofList [5])).1 ≤ 2 ^ 31)
    ∧ (rand_lit (ofList [100, 7])).1
        = intStr (rand_int (-(2 ^ 31)) (2 ^ 31) (rand_real (ofList [100, 7])).2).1
    ∧ (rand_lit (ofList [300])).1 = "True"
    ∧ (rand_lit (ofList [600])).1 = "False"
    ∧ (rand_lit (ofList [800])).1
        = "\"" ++ (rand_id 10 (rand_real (ofList [800])).2).1 ++ "\""
    ∧ ((List.range 1000).filter (fun r => litCat r == 3)).length = 250 :=
  ⟨C7_literal_ranges.1 (ofList [5]),
    C7_literal_ranges.2.1 (ofList [100, 7]) (by decide),
    C7_literal_ranges.2.2.1 (ofList [300]) (by decide) (by decide),
    C7_literal_ranges.2.2.2.1 (ofList [600]) (by decide) (by decide),
    C7_literal_ranges.2.2.2.2.1 (ofList [800]) (by decide),
    C7_literal_ranges.2.2.2.2.2.2 3 (by decide)⟩

/-- C7 counterexample: rand_lit can emit 2147483648 = 2 ^ 31, one above
the signed 32-bit maximum 2 ^ 31 - 1. -/
theorem C7_counterexample :
    (rand_lit (ofList [0, 4294967296])).1 = "2147483648"
    ∧ ¬((2147483648 : Int) ≤ 2 ^ 31 - 1) :=
  ⟨by decide, by norm_num⟩

/-- C2: evaluation at the failing input decls = 1, stmts = 1.  The block
output carries the generated statement where the declarations section
belongs, the declarations string that rand_decls produced inside this
very call does not occur in the output at all, and the statements slot
is empty — src line 280 stores the rand_stmts result in decls_. -/
theorem C2_decls_dropped :
    (generate_block 1 "if" true true (.i 1) (.i 1) false false
        (ofList [])).map Prod.fst = some "if True\n[\naaaaa:aaaaa++.\n\n\n]\n"
    ∧ (rand_decls 1 (blockCond true true (ofList [])).2).1 = "\ninteger aaa."
    ∧ hasSub "integer".toList "if True\n[\naaaaa:aaaaa++.\n\n\n]\n".toList = false
    ∧ hasSub "aaaaa:aaaaa++.".toList
        "if True\n[\naaaaa:aaaaa++.\n\n\n]\n".toList = true :=
  ⟨rfl, by decide, by decide, by decide⟩

theorem shiftN12_badS : shiftN 12 badS = badS := by
  funext i
  show badS (i + 1 + 1 + 1 + 1 + 1 + 1 + 1 + 1 + 1 + 1 + 1 + 1) = badS i
  simp only [badS]
  congr 1
  omega

theorem rand_stmtsWith_none {stmtGen : RS → Option (String × RS)} (k : Nat)
    (s : RS) (h : stmtGen s = none) :
    rand_stmtsWith stmtGen (k + 1) s = none := by
  simp [rand_stmtsWith, stmtsListWith, h]

theorem generate_blockWith_none {stmtGen : RS → Option (String × RS)}
    (kw : String) (cond simple : Bool) (decls : BI) (ret retval : Bool)
    (s : RS) (stmts : BI) (hst : stmts.truthy = true)
    (h : rand_stmtsWith stmtGen stmts.count
      (if decls.truthy then rand_decls decls.count (blockCond cond simple s).2
       else ("", (blockCond cond simple s).2)).2 = none) :
    generate_blockWith stmtGen kw cond simple decls stmts ret retval s = none := by
  simp [generate_blockWith, hst, h]

/-- On the adversarial stream the dispatcher never returns: every fuel
level keeps drawing an if statement with stmts enabled, whose single
nested statement re-enters the dispatcher at the very same stream. -/
theorem statment_badS_none :
    ∀ fuel : Nat, generate_random_statment fuel badS = none := by
  intro fuel
  induction fuel with
  | zero => rfl
  | succ f ih =>
    have h1 : generate_random_statment f (shiftN 12 badS) = none := by
      rw [shiftN12_badS]
      exact ih
    have h2 : rand_stmtsWith (generate_random_statment f) 1 (shiftN 12 badS)
        = none := rand_stmtsWith_none 0 _ h1
    have h3 : generate_blockWith (generate_random_statment f) "if" true true
        (.b false) (.b true) false false (shiftN 6 badS) = none :=
      generate_blockWith_none "if" true true (.b false) false false
        (shiftN 6 badS) (.b true) rfl h2
    calc generate_random_statment (f + 1) badS
        = generate_blockWith (generate_random_statment f) "if" true true
            (.b false) (.b true) false false (shiftN 6 badS) := rfl
      _ = none := h3

/-- C4 counterexample: the claim that every generator call performs only
a finite, bounded amount of work fails for the mutual recursion — on
the adversarial stream no recursion budget whatsoever completes the
dispatcher call. -/
theorem C4_counterexample :
    ¬(∀ s : RS, ∃ fuel : Nat, (generate_random_statment fuel s).isSome = true) := by
  intro h
  obtain ⟨fuel, hf⟩ := h badS
  rw [statment_badS_none fuel] at hf
  simp at hf

/-- C4 (amended): rand_exp recursion strictly decreases depth toward 0,
one level per step; a dispatcher draw selecting any non-block statement
kind returns within one fuel level; but the mutual recursion through
nested blocks admits no uniform recursion budget. -/
theorem C4_termination_amended :
    (∀ (g : RS → String × RS) (ops : List String) (depth : Int) (s : RS),
      1 ≤ depth →
      rand_exp g ops depth s
        = expCombine ops (rand_exp g ops (depth - 1) s).1
            (rand_exp g ops (depth - 1) (rand_exp g ops (depth - 1) s).2).1
            (rand_exp g ops (depth - 1) (rand_exp g ops (depth - 1) s).2).2)
    ∧ (∀ (fuel : Nat) (s : RS), 1 ≤ fuel →
      s 0 % 9 ∈ ([0, 1, 5, 6, 7, 8] : List Nat) →
      (generate_random_statment fuel s).isSome = true)
    ∧ ¬(∃ bound : Nat, ∀ s : RS,
      (generate_random_statment bound s).isSome = true) := by
  refine ⟨?_, ?_, ?_⟩
  · intro g ops depth s h
    obtain ⟨m, hm⟩ : ∃ m, depth.toNat = m + 1 := ⟨depth.toNat - 1, by omega⟩
    have h1 : (depth - 1).toNat = m := by omega
    unfold rand_exp
    rw [hm, h1]
    rfl
  · intro fuel s hf hmem
    obtain ⟨f, rfl⟩ : ∃ f, fuel = f + 1 := ⟨fuel - 1, by omega⟩
    simp only [List.mem_cons] at hmem
    rcases hmem with h | h | h | h | h | h | h
    · simp [generate_random_statment, randNat, h]
    · simp [generate_random_statment, randNat, h]
    · simp [generate_random_statment, randNat, h]
    · simp [generate_random_statment, randNat, h]
    · simp [generate_random_statment, randNat, h]
    · simp [generate_random_statment, randNat, h]
    · exact absurd h (by simp)
  · rintro ⟨bound, hb⟩
    have hbad := hb badS
    rw [statment_badS_none bound] at hbad
    simp at hbad

/-- Witness for C4 at depth 1 and at a concrete non-block dispatcher draw. -/
theorem C4_termination_amended_witness :
    rand_exp rhs_term math_ops 1 (ofList [])
      = expCombine math_ops (rand_exp rhs_term math_ops 0 (ofList [])).1
          (rand_exp rhs_term math_ops 0
            (rand_exp rhs_term math_ops 0 (ofList [])).2).1
          (rand_exp rhs_term math_ops 0
            (rand_exp rhs_term math_ops 0 (ofList [])).2).2
    ∧ (generate_random_statment 1 (ofList [7])).isSome = true :=
  ⟨C4_termination_amended.1 rhs_term math_ops 1 (ofList []) (by decide),
    C4_termination_amended.2.1 1 (ofList [7]) (by decide) (by decide)⟩

end GenBase
